import Mathlib

/-!
# Verification of the Jury backend (`backend/server.js`)

A shallow embedding of the Express + MongoDB backend of the hackathon
judging application.  Documents are association lists of field names to
JSON-like values; the Mongo operations used by the server (`find`,
`insertOne`, `insertMany`, `updateOne` with `$set` and optional upsert,
`deleteOne`, `deleteMany`) are modelled as pure functions on lists of
documents; each Express route handler becomes a pure function from the
environment, the store's reachability, the request parameters and the
store state to a response together with the new store state.
-/

/-- A JSON-like value stored in a document field.  `oid h` is a BSON
ObjectId, represented by its 24-character lower-case hex string. -/
inductive Val where
  | str (s : String)
  | num (n : Int)
  | oid (h : String)
  | boolV (b : Bool)
  | nullV
deriving DecidableEq, Repr

/-- A document: an association list from field names to values, first
binding wins on lookup (a parsed JSON object has no duplicate keys). -/
abbrev MDoc := List (String × Val)

/-- Field lookup in a document. -/
def getF (d : MDoc) (k : String) : Option Val :=
  (d.find? (fun p => p.1 == k)).map (fun p => p.2)

/-- Whether a document has a binding for key `k`. -/
def hasKey (d : MDoc) (k : String) : Bool :=
  d.any (fun p => p.1 == k)

/-- Mongo `$set` of a single field: overwrite the existing binding in
place, or append a new binding. -/
def setField (d : MDoc) (k : String) (v : Val) : MDoc :=
  if hasKey d k then d.map (fun p => if p.1 == k then (k, v) else p)
  else d ++ [(k, v)]

/-- Mongo `$set` with an update document: each field of `upd` is set in
order. -/
def applySet (d : MDoc) (upd : List (String × Val)) : MDoc :=
  upd.foldl (fun acc kv => setField acc kv.1 kv.2) d

/-- JavaScript rest-destructuring `const { id, ...data } = body`: the
document without its `id` binding. -/
def dropId (d : MDoc) : MDoc :=
  d.filter (fun p => p.1 != "id")

/-- The hex digit character for `n < 16` (lower case, as produced by
`ObjectId.toHexString`). -/
def hexDigit (n : Nat) : Char :=
  if n < 10 then Char.ofNat (48 + n) else Char.ofNat (87 + n)

/-- The 24-character lower-case hex string of a freshly generated
ObjectId, abstracting the generator by a natural counter. -/
def toHex24 (n : Nat) : String :=
  String.mk ((List.range 24).map (fun i => hexDigit (n / 16 ^ (23 - i) % 16)))

/-- Whether `c` is a hexadecimal digit (either case), as accepted by the
`ObjectId` constructor. -/
def isHexChar (c : Char) : Bool :=
  (48 ≤ c.toNat && c.toNat ≤ 57) || (97 ≤ c.toNat && c.toNat ≤ 102) ||
    (65 ≤ c.toNat && c.toNat ≤ 70)

/-- Whether `s` is a well-formed external ObjectId string: 24 hex
characters (`new ObjectId(s)` succeeds on exactly these strings). -/
def isValidObjectId (s : String) : Bool :=
  s.length == 24 && s.data.all isHexChar

/-- Lower-casing of a string (`String.toLower`), character by character. -/
def lowerString (s : String) : String :=
  ⟨s.data.map Char.toLower⟩

/-- `getObjectId` from `server.js`: `new ObjectId(id)` wrapped in
try/catch, `null` on a malformed string.  The resulting ObjectId compares
by its bytes, i.e. by the lower-cased hex string. -/
def getObjectId (s : String) : Option String :=
  if isValidObjectId s then some (lowerString s) else none

/-- Whether the document's `_id` is the ObjectId with hex string `h`. -/
def matchesOid (h : String) (d : MDoc) : Bool :=
  getF d "_id" == some (Val.oid h)

/-- Whether the document's `id` field equals the query value `q`
(`q = none` models a query on a missing/undefined value). -/
def matchesIdQ (q : Option Val) (d : MDoc) : Bool :=
  getF d "id" == q

/-- Replace the first document satisfying `p` by its image under `f`
(Mongo `updateOne`: at most one document is updated). -/
def updateFirstWhere (p : MDoc → Bool) (f : MDoc → MDoc) : List MDoc → List MDoc
  | [] => []
  | d :: ds => if p d then f d :: ds else d :: updateFirstWhere p f ds

/-- Remove the first document satisfying `p` (Mongo `deleteOne`). -/
def removeFirstWhere (p : MDoc → Bool) : List MDoc → List MDoc
  | [] => []
  | d :: ds => if p d then ds else d :: removeFirstWhere p ds

/-- The state of the persistent store: the four collections plus the
counter abstracting the ObjectId generator. -/
structure DB where
  projects : List MDoc
  judges : List MDoc
  criteria : List MDoc
  scores : List MDoc
  nextOid : Nat
deriving DecidableEq, Repr

/-- Server environment variables. -/
structure Env where
  mongoUri : Option String
  port : Option String
deriving DecidableEq, Repr

/-- Reachability of the MongoDB store; `down raw` carries the raw driver
error message of the failed `client.connect()`. -/
inductive StoreStatus where
  | up
  | down (raw : String)
deriving DecidableEq, Repr

/-- JavaScript truthiness of `process.env.MONGODB_URI` (absent or empty
is falsy). -/
def uriPresent (env : Env) : Bool :=
  match env.mongoUri with
  | none => false
  | some s => s != ""

/-- `String.prototype.includes`: whether `pat` occurs in `s`. -/
def containsSub (s pat : String) : Bool :=
  (s.splitOn pat).length != 1

/-- Message thrown by `connectDB` when `MONGODB_URI` is not set. -/
def missingUriMessage : String :=
  "MONGODB_URI environment variable is not configured on the server."

/-- Connection-failure message for the auth sub-case. -/
def authFailMessage : String :=
  "Database authentication failed. Please check credentials in MONGODB_URI."

/-- Connection-failure message for the timeout sub-case. -/
def timeoutMessage : String :=
  "Database connection timed out. This may be a firewall or IP whitelist issue. Ensure Vercel's IPs are whitelisted in your database settings (try allowing access from 0.0.0.0/0)."

/-- Generic connection-failure message. -/
def genericConnMessage : String :=
  "Could not establish database connection."

/-- The human-readable message `connectDB` rethrows for a raw driver
connection error. -/
def connectionErrorMessage (raw : String) : String :=
  if containsSub raw "bad auth" then authFailMessage
  else if containsSub raw "timeout" then timeoutMessage
  else genericConnMessage

/-- `connectDB` from `server.js`: throws when the URI is missing, rethrows
a mapped message when the store is unreachable, otherwise yields the
database handle (modelled as `Unit`). -/
def connectDB (env : Env) (st : StoreStatus) : Except String Unit :=
  if uriPresent env then
    match st with
    | StoreStatus.up => Except.ok ()
    | StoreStatus.down raw => Except.error (connectionErrorMessage raw)
  else Except.error missingUriMessage

/-- `const PORT = process.env.PORT || 3001`. -/
inductive PortSetting where
  | fromEnv (s : String)
  | defaultPort (n : Nat)
deriving DecidableEq, Repr

/-- The listen port: the `PORT` environment variable when set and
non-empty (truthy), else the default `3001`. -/
def resolvedPort (env : Env) : PortSetting :=
  match env.port with
  | none => PortSetting.defaultPort 3001
  | some s => if s == "" then PortSetting.defaultPort 3001 else PortSetting.fromEnv s

/-- The body of an HTTP response sent by the server. -/
inductive RespBody where
  | msg (m : String)
  | doc (d : MDoc)
  | docs (ds : List MDoc)
  | snapshot (projects judges criteria scores : List MDoc)
  | success
  | jnull
deriving DecidableEq, Repr

/-- An HTTP response: status code and JSON body. -/
structure Response where
  status : Nat
  body : RespBody
deriving DecidableEq, Repr

/-- The list of documents carried by a `docs` response body (empty for
any other body shape). -/
def respDocs : RespBody → List MDoc
  | RespBody.docs ds => ds
  | _ => []

/-- JavaScript truthiness of a stored value (a missing binding, i.e.
`undefined`, is handled at the use site). -/
def truthy : Val → Bool
  | Val.str s => s != ""
  | Val.num n => n != 0
  | Val.oid _ => true
  | Val.boolV b => b
  | Val.nullV => false

/-- Message of the TypeError thrown by `_id.toHexString()` when the
stored `_id` is truthy but not an ObjectId (only ObjectId values have a
`toHexString` method).  The concrete wording stands in for the JS
runtime's TypeError message, which the handlers surface verbatim in
their 500 responses. -/
def toHexTypeErrorMessage : String :=
  "_id.toHexString is not a function"

/-- `transformDoc` from `server.js`: strip the storage key `_id` and
expose `{ id: _id ? _id.toHexString() : rest.id, ...rest }`.  Calling
`toHexString` on a truthy non-ObjectId `_id` throws a TypeError,
modelled as `Except.error`; a falsy or missing `_id` falls back to
`rest.id`, and the spread overrides the computed `id` when `rest`
already has one. -/
def transformDoc (d : MDoc) : Except String MDoc :=
  let rest := d.filter (fun p => p.1 != "_id")
  match getF d "_id" with
  | some (Val.oid h) =>
      Except.ok (if hasKey rest "id" then rest else ("id", Val.str h) :: rest)
  | some v =>
      if truthy v then Except.error toHexTypeErrorMessage
      else Except.ok rest
  | none => Except.ok rest

/-- `coll.map(transformDoc)` in JavaScript: element-wise transformation,
where the first thrown TypeError aborts the whole map. -/
def mapTransform : List MDoc → Except String (List MDoc)
  | [] => Except.ok []
  | d :: ds =>
      match transformDoc d with
      | Except.error e => Except.error e
      | Except.ok t =>
          match mapTransform ds with
          | Except.error e => Except.error e
          | Except.ok ts => Except.ok (t :: ts)

/-- Mongo `insertOne`: store the body, generating a fresh `_id` when the
body has none; returns the new collection, the inserted id value and the
new generator counter. -/
def insertOne (coll : List MDoc) (next : Nat) (body : MDoc) :
    List MDoc × Val × Nat :=
  match getF body "_id" with
  | some v => (coll ++ [body], v, next)
  | none =>
      (coll ++ [body ++ [("_id", Val.oid (toHex24 next))]],
       Val.oid (toHex24 next), next + 1)

/-- Mongo `insertMany` over the list of bodies: the stored documents, the
list of inserted id values, and the new generator counter. -/
def insertDocs (next : Nat) : List MDoc → List MDoc × List Val × Nat
  | [] => ([], [], next)
  | b :: bs =>
      match getF b "_id" with
      | some v =>
          let r := insertDocs next bs
          (b :: r.1, v :: (r.2).1, (r.2).2)
      | none =>
          let d := b ++ [("_id", Val.oid (toHex24 next))]
          let r := insertDocs (next + 1) bs
          (d :: r.1, Val.oid (toHex24 next) :: (r.2).1, (r.2).2)

/-- The PUT handler body shared verbatim by the three entity routes:
validate the id, drop `id` from the payload, connect, `updateOne` with
`$set`, 404 on `matchedCount === 0`, else echo the request body. -/
def putOneCore (env : Env) (st : StoreStatus) (idStr : String) (body : MDoc)
    (coll : List MDoc) (notFound : String) : Response × List MDoc :=
  match getObjectId idStr with
  | none => (⟨400, RespBody.msg "Invalid ID format"⟩, coll)
  | some h =>
      match connectDB env st with
      | Except.error m => (⟨500, RespBody.msg m⟩, coll)
      | Except.ok _ =>
          if coll.any (matchesOid h) then
            (⟨200, RespBody.doc body⟩,
             updateFirstWhere (matchesOid h) (fun d => applySet d (dropId body)) coll)
          else (⟨404, RespBody.msg notFound⟩, coll)

/-- The DELETE handler body shared verbatim by the three entity routes:
validate the id, connect, `deleteOne`, 404 on `deletedCount === 0`; the
boolean reports whether a document was deleted (the cascade, when the
route has one, runs exactly then). -/
def deleteOneCore (env : Env) (st : StoreStatus) (idStr : String)
    (coll : List MDoc) (notFound : String) : Response × List MDoc × Bool :=
  match getObjectId idStr with
  | none => (⟨400, RespBody.msg "Invalid ID format"⟩, coll, false)
  | some h =>
      match connectDB env st with
      | Except.error m => (⟨500, RespBody.msg m⟩, coll, false)
      | Except.ok _ =>
          if coll.any (matchesOid h) then
            (⟨200, RespBody.success⟩, removeFirstWhere (matchesOid h) coll, true)
          else (⟨404, RespBody.msg notFound⟩, coll, false)

/-- The POST handler body shared by the judges and criteria routes:
connect, `insertOne`, `findOne` the inserted id, respond 201 with the
transformed document; a TypeError thrown by `transformDoc` is caught at
the route boundary as a 500, with the insert already persisted. -/
def postOneCore (env : Env) (st : StoreStatus) (body : MDoc)
    (coll : List MDoc) (next : Nat) : Response × List MDoc × Nat :=
  match connectDB env st with
  | Except.error m => (⟨500, RespBody.msg m⟩, coll, next)
  | Except.ok _ =>
      let r := insertOne coll next body
      match r.1.find? (fun d => getF d "_id" == some (r.2).1) with
      | some d =>
          match transformDoc d with
          | Except.error e => (⟨500, RespBody.msg e⟩, r.1, (r.2).2)
          | Except.ok t => (⟨201, RespBody.doc t⟩, r.1, (r.2).2)
      | none => (⟨201, RespBody.jnull⟩, r.1, (r.2).2)

/-- Handler of `GET /api/data`: the three `map(transformDoc)` calls run
in the order projects, judges, criteria; the first TypeError aborts the
response and is surfaced as a 500. -/
def getDataHandler (env : Env) (st : StoreStatus) (db : DB) : Response × DB :=
  match connectDB env st with
  | Except.error m => (⟨500, RespBody.msg m⟩, db)
  | Except.ok _ =>
      match mapTransform db.projects with
      | Except.error e => (⟨500, RespBody.msg e⟩, db)
      | Except.ok ps =>
          match mapTransform db.judges with
          | Except.error e => (⟨500, RespBody.msg e⟩, db)
          | Except.ok js =>
              match mapTransform db.criteria with
              | Except.error e => (⟨500, RespBody.msg e⟩, db)
              | Except.ok cs =>
                  (⟨200, RespBody.snapshot ps js cs db.scores⟩, db)

/-- Handler of `POST /api/projects`: `insertMany(req.body)`, then find
the documents whose `_id` is among the inserted ids and respond 201 with
their transformed forms; a TypeError during the transform map is caught
as a 500, with the inserts already persisted. -/
def postProjectsHandler (env : Env) (st : StoreStatus) (bodies : List MDoc)
    (db : DB) : Response × DB :=
  match connectDB env st with
  | Except.error m => (⟨500, RespBody.msg m⟩, db)
  | Except.ok _ =>
      let r := insertDocs db.nextOid bodies
      let newColl := db.projects ++ r.1
      let created := newColl.filter (fun d =>
        match getF d "_id" with
        | some v => (r.2).1.contains v
        | none => false)
      match mapTransform created with
      | Except.error e =>
          (⟨500, RespBody.msg e⟩, { db with projects := newColl, nextOid := (r.2).2 })
      | Except.ok ts =>
          (⟨201, RespBody.docs ts⟩, { db with projects := newColl, nextOid := (r.2).2 })

/-- Handler of `PUT /api/projects/:id`. -/
def putProjectHandler (env : Env) (st : StoreStatus) (idStr : String)
    (body : MDoc) (db : DB) : Response × DB :=
  let r := putOneCore env st idStr body db.projects "Project not found"
  (r.1, { db with projects := r.2 })

/-- Handler of `DELETE /api/projects/:id`: on a successful `deleteOne`,
cascade `deleteMany({ projectId: req.params.id })` on the scores. -/
def deleteProjectHandler (env : Env) (st : StoreStatus) (idStr : String)
    (db : DB) : Response × DB :=
  let r := deleteOneCore env st idStr db.projects "Project not found"
  if (r.2).2 then
    (r.1, { db with
            projects := (r.2).1,
            scores := db.scores.filter (fun d =>
              !(getF d "projectId" == some (Val.str idStr))) })
  else (r.1, { db with projects := (r.2).1 })

/-- Handler of `POST /api/judges`. -/
def postJudgesHandler (env : Env) (st : StoreStatus) (body : MDoc)
    (db : DB) : Response × DB :=
  let r := postOneCore env st body db.judges db.nextOid
  (r.1, { db with judges := (r.2).1, nextOid := (r.2).2 })

/-- Handler of `PUT /api/judges/:id`. -/
def putJudgeHandler (env : Env) (st : StoreStatus) (idStr : String)
    (body : MDoc) (db : DB) : Response × DB :=
  let r := putOneCore env st idStr body db.judges "Judge not found"
  (r.1, { db with judges := r.2 })

/-- Handler of `DELETE /api/judges/:id`: on a successful `deleteOne`,
cascade `deleteMany({ judgeId: req.params.id })` on the scores. -/
def deleteJudgeHandler (env : Env) (st : StoreStatus) (idStr : String)
    (db : DB) : Response × DB :=
  let r := deleteOneCore env st idStr db.judges "Judge not found"
  if (r.2).2 then
    (r.1, { db with
            judges := (r.2).1,
            scores := db.scores.filter (fun d =>
              !(getF d "judgeId" == some (Val.str idStr))) })
  else (r.1, { db with judges := (r.2).1 })

/-- Handler of `POST /api/criteria`. -/
def postCriteriaHandler (env : Env) (st : StoreStatus) (body : MDoc)
    (db : DB) : Response × DB :=
  let r := postOneCore env st body db.criteria db.nextOid
  (r.1, { db with criteria := (r.2).1, nextOid := (r.2).2 })

/-- Handler of `PUT /api/criteria/:id`. -/
def putCriterionHandler (env : Env) (st : StoreStatus) (idStr : String)
    (body : MDoc) (db : DB) : Response × DB :=
  let r := putOneCore env st idStr body db.criteria "Criterion not found"
  (r.1, { db with criteria := r.2 })

/-- Handler of `DELETE /api/criteria/:id` (no cascade). -/
def deleteCriterionHandler (env : Env) (st : StoreStatus) (idStr : String)
    (db : DB) : Response × DB :=
  let r := deleteOneCore env st idStr db.criteria "Criterion not found"
  (r.1, { db with criteria := (r.2).1 })

/-- The document stored by an upsert that found no match: the query's
equality field `{id: q}` with `$set` applied, plus a generated `_id` when
none was set. -/
def upsertNewDoc (next : Nat) (q : Option Val) (scoreData : List (String × Val)) :
    MDoc :=
  let base := applySet (match q with | some v => [("id", v)] | none => []) scoreData
  if hasKey base "_id" then base else base ++ [("_id", Val.oid (toHex24 next))]

/-- Handler of `POST /api/scores`: destructure `{ id, ...scoreData }` and
`updateOne({ id }, { $set: scoreData }, { upsert: true })`; always echoes
the submitted payload with status 200. -/
def postScoresHandler (env : Env) (st : StoreStatus) (body : MDoc)
    (db : DB) : Response × DB :=
  let q := getF body "id"
  let scoreData := dropId body
  match connectDB env st with
  | Except.error m => (⟨500, RespBody.msg m⟩, db)
  | Except.ok _ =>
      if db.scores.any (matchesIdQ q) then
        (⟨200, RespBody.doc body⟩,
         { db with scores :=
             updateFirstWhere (matchesIdQ q) (fun d => applySet d scoreData) db.scores })
      else
        (⟨200, RespBody.doc body⟩,
         { db with scores := db.scores ++ [upsertNewDoc db.nextOid q scoreData],
                   nextOid := db.nextOid + 1 })

/-- Handler of `DELETE /api/scores/:id`: `deleteOne({ id: req.params.id })`
with no id-format validation (score ids are arbitrary client strings). -/
def deleteScoreHandler (env : Env) (st : StoreStatus) (idStr : String)
    (db : DB) : Response × DB :=
  match connectDB env st with
  | Except.error m => (⟨500, RespBody.msg m⟩, db)
  | Except.ok _ =>
      if db.scores.any (matchesIdQ (some (Val.str idStr))) then
        (⟨200, RespBody.success⟩,
         { db with scores :=
             removeFirstWhere (matchesIdQ (some (Val.str idStr))) db.scores })
      else (⟨404, RespBody.msg "Score not found"⟩, db)

/-- A request to one of the twelve API routes of `server.js`. -/
inductive Request where
  | getData
  | postProjects (bodies : List MDoc)
  | putProject (idStr : String) (body : MDoc)
  | deleteProject (idStr : String)
  | postJudges (body : MDoc)
  | putJudge (idStr : String) (body : MDoc)
  | deleteJudge (idStr : String)
  | postCriteria (body : MDoc)
  | putCriterion (idStr : String) (body : MDoc)
  | deleteCriterion (idStr : String)
  | postScores (body : MDoc)
  | deleteScore (idStr : String)
deriving DecidableEq, Repr

/-- The Express router: dispatch a request to its handler. -/
def handle (env : Env) (st : StoreStatus) : Request → DB → Response × DB
  | Request.getData => getDataHandler env st
  | Request.postProjects bodies => postProjectsHandler env st bodies
  | Request.putProject i b => putProjectHandler env st i b
  | Request.deleteProject i => deleteProjectHandler env st i
  | Request.postJudges b => postJudgesHandler env st b
  | Request.putJudge i b => putJudgeHandler env st i b
  | Request.deleteJudge i => deleteJudgeHandler env st i
  | Request.postCriteria b => postCriteriaHandler env st b
  | Request.putCriterion i b => putCriterionHandler env st i b
  | Request.deleteCriterion i => deleteCriterionHandler env st i
  | Request.postScores b => postScoresHandler env st b
  | Request.deleteScore i => deleteScoreHandler env st i

/-- The update/delete requests whose path identifier fails the route's id
format: project, judge and criterion routes key documents by ObjectId, so
any string that is not 24 hex characters is malformed there; score ids
are arbitrary client-generated strings, so every string conforms on the
score delete route and the score routes have no malformed identifiers. -/
def malformedIdRequest : Request → Prop
  | Request.putProject s _ => isValidObjectId s = false
  | Request.deleteProject s => isValidObjectId s = false
  | Request.putJudge s _ => isValidObjectId s = false
  | Request.deleteJudge s => isValidObjectId s = false
  | Request.putCriterion s _ => isValidObjectId s = false
  | Request.deleteCriterion s => isValidObjectId s = false
  | Request.getData => False
  | Request.postProjects _ => False
  | Request.postJudges _ => False
  | Request.postCriteria _ => False
  | Request.postScores _ => False
  | Request.deleteScore _ => False

/-- Requests whose path identifier, when the route validates one, is a
well-formed ObjectId string. -/
def wellFormedReq : Request → Prop
  | Request.putProject s _ => isValidObjectId s = true
  | Request.deleteProject s => isValidObjectId s = true
  | Request.putJudge s _ => isValidObjectId s = true
  | Request.deleteJudge s => isValidObjectId s = true
  | Request.putCriterion s _ => isValidObjectId s = true
  | Request.deleteCriterion s => isValidObjectId s = true
  | Request.getData => True
  | Request.postProjects _ => True
  | Request.postJudges _ => True
  | Request.postCriteria _ => True
  | Request.postScores _ => True
  | Request.deleteScore _ => True

/-! ## Lemmas about field lookup and Mongo dollar-set -/

theorem getF_nil (k : String) : getF [] k = none := rfl

theorem getF_cons (k' k : String) (v : Val) (d : MDoc) :
    getF ((k', v) :: d) k = if k' == k then some v else getF d k := by
  by_cases h : k' == k
  · simp [getF, List.find?_cons, h]
  · simp only [Bool.not_eq_true] at h
    simp [getF, List.find?_cons, h]

theorem getF_append (d e : MDoc) (k : String) :
    getF (d ++ e) k = (getF d k).or (getF e k) := by
  unfold getF
  rw [List.find?_append]
  cases List.find? (fun p => p.1 == k) d <;> simp [Option.or]

theorem getF_eq_none_of_not_hasKey (d : MDoc) (k : String)
    (h : hasKey d k = false) : getF d k = none := by
  unfold getF
  rw [List.find?_eq_none.mpr]
  · rfl
  · intro p hp hpk
    rw [hasKey, List.any_eq_false] at h
    exact h p hp hpk

theorem hasKey_eq_true_of_getF (d : MDoc) (k : String) (v : Val)
    (h : getF d k = some v) : hasKey d k = true := by
  unfold getF at h
  cases hf : List.find? (fun p => p.1 == k) d with
  | none => rw [hf] at h; simp at h
  | some p =>
      have hm := List.mem_of_find?_eq_some hf
      have hk := List.find?_some hf
      rw [hasKey, List.any_eq_true]
      exact ⟨p, hm, hk⟩

theorem getF_filterKey_self (d : MDoc) (k : String) :
    getF (d.filter (fun p => p.1 != k)) k = none := by
  apply getF_eq_none_of_not_hasKey
  rw [hasKey, List.any_eq_false]
  intro p hp
  have h2 := (List.mem_filter.mp hp).2
  simp only [bne_iff_ne, ne_eq] at h2
  intro hc
  exact h2 (by simpa using hc)

theorem getF_filterKey_ne (d : MDoc) (k0 k : String) (h : k ≠ k0) :
    getF (d.filter (fun p => p.1 != k0)) k = getF d k := by
  induction d with
  | nil => rfl
  | cons p d ih =>
      obtain ⟨p1, p2⟩ := p
      by_cases hp : p1 = k0
      · have hb : List.filter (fun p => p.1 != k0) ((p1, p2) :: d)
            = List.filter (fun p => p.1 != k0) d := by
          simp [List.filter_cons, hp]
        rw [hb, ih, getF_cons]
        have hk : (p1 == k) = false := by
          simp only [beq_eq_false_iff_ne, ne_eq]
          intro hh
          exact h (hh ▸ hp)
        rw [hk]
        simp
      · have hb : List.filter (fun p => p.1 != k0) ((p1, p2) :: d)
            = (p1, p2) :: List.filter (fun p => p.1 != k0) d := by
          simp [List.filter_cons, hp]
        rw [hb, getF_cons, getF_cons, ih]

theorem getF_map_set_self (d : MDoc) (k : String) (v : Val) (h : hasKey d k = true) :
    getF (d.map (fun p => if p.1 == k then (k, v) else p)) k = some v := by
  induction d with
  | nil => simp [hasKey] at h
  | cons p d ih =>
      obtain ⟨p1, p2⟩ := p
      by_cases hp : p1 = k
      · have hb : ((p1, p2).1 == k) = true := by simp [hp]
        simp only [List.map_cons, hb, if_true]
        rw [getF_cons]
        simp
      · have hb : ((p1, p2).1 == k) = false := by simp [hp]
        simp only [List.map_cons, hb, Bool.false_eq_true, if_false]
        rw [getF_cons, hb]
        simp only [Bool.false_eq_true, if_false]
        rw [hasKey, List.any_cons] at h
        simp only [hb, Bool.false_or] at h
        exact ih h

theorem getF_map_set_ne (d : MDoc) (k k' : String) (v : Val) (h : k' ≠ k) :
    getF (d.map (fun p => if p.1 == k then (k, v) else p)) k' = getF d k' := by
  induction d with
  | nil => rfl
  | cons p d ih =>
      obtain ⟨p1, p2⟩ := p
      by_cases hp : p1 = k
      · have hb : ((p1, p2).1 == k) = true := by simp [hp]
        simp only [List.map_cons, hb, if_true]
        rw [getF_cons, getF_cons]
        have h1 : (k == k') = false := by
          simp only [beq_eq_false_iff_ne, ne_eq]
          exact fun hh => h hh.symm
        have h2 : (p1 == k') = false := by
          rw [hp]
          exact h1
        rw [h1, h2]
        simp only [Bool.false_eq_true, if_false]
        exact ih
      · have hb : ((p1, p2).1 == k) = false := by simp [hp]
        simp only [List.map_cons, hb, Bool.false_eq_true, if_false]
        rw [getF_cons, getF_cons]
        by_cases hq : p1 == k'
        · rw [hq]
          simp
        · have hq2 : (p1 == k') = false := by simpa using hq
          rw [hq2]
          simp only [Bool.false_eq_true, if_false]
          exact ih

theorem getF_setField_self (d : MDoc) (k : String) (v : Val) :
    getF (setField d k v) k = some v := by
  unfold setField
  by_cases h : hasKey d k
  · rw [if_pos h]
    exact getF_map_set_self d k v h
  · rw [if_neg h]
    rw [getF_append]
    rw [getF_eq_none_of_not_hasKey d k (by simpa using h)]
    rw [getF_cons]
    simp

theorem getF_setField_ne (d : MDoc) (k k' : String) (v : Val) (h : k' ≠ k) :
    getF (setField d k v) k' = getF d k' := by
  unfold setField
  by_cases hk : hasKey d k
  · rw [if_pos hk]
    exact getF_map_set_ne d k k' v h
  · rw [if_neg hk]
    rw [getF_append, getF_cons]
    have h1 : (k == k') = false := by
      simp only [beq_eq_false_iff_ne, ne_eq]
      exact fun hh => h hh.symm
    rw [h1]
    simp only [Bool.false_eq_true, if_false, getF_nil]
    cases getF d k' <;> rfl

theorem getF_applySet_not_mem (d : MDoc) (upd : List (String × Val)) (k : String)
    (h : k ∉ upd.map Prod.fst) : getF (applySet d upd) k = getF d k := by
  induction upd generalizing d with
  | nil => rfl
  | cons u rest ih =>
      simp only [List.map_cons, List.mem_cons, not_or] at h
      rw [applySet, List.foldl_cons]
      rw [show (List.foldl (fun acc kv => setField acc kv.1 kv.2) (setField d u.1 u.2) rest)
            = applySet (setField d u.1 u.2) rest from rfl]
      rw [ih (setField d u.1 u.2) h.2]
      exact getF_setField_ne d u.1 k u.2 h.1

theorem getF_applySet_mem (d : MDoc) (upd : List (String × Val)) (k : String) (v : Val)
    (hnd : (upd.map Prod.fst).Nodup) (h : (k, v) ∈ upd) :
    getF (applySet d upd) k = some v := by
  induction upd generalizing d with
  | nil => simp at h
  | cons u rest ih =>
      rw [applySet, List.foldl_cons]
      rw [show (List.foldl (fun acc kv => setField acc kv.1 kv.2) (setField d u.1 u.2) rest)
            = applySet (setField d u.1 u.2) rest from rfl]
      simp only [List.map_cons, List.nodup_cons] at hnd
      rcases List.mem_cons.mp h with heq | hmem
      · subst heq
        rw [getF_applySet_not_mem _ rest k hnd.1]
        exact getF_setField_self d k v
      · exact ih _ hnd.2 hmem

/-! ## Lemmas about updateOne, dropId and transformDoc -/

theorem length_updateFirstWhere (p : MDoc → Bool) (f : MDoc → MDoc) (l : List MDoc) :
    (updateFirstWhere p f l).length = l.length := by
  induction l with
  | nil => rfl
  | cons d ds ih =>
      rw [updateFirstWhere]
      by_cases h : p d
      · rw [if_pos h]
        simp
      · rw [if_neg h]
        simp [ih]

theorem find?_updateFirstWhere (p : MDoc → Bool) (f : MDoc → MDoc) (l : List MDoc)
    (d : MDoc) (h : l.find? p = some d) (hf : p (f d) = true) :
    (updateFirstWhere p f l).find? p = some (f d) := by
  induction l with
  | nil => simp at h
  | cons a l ih =>
      by_cases ha : p a
      · rw [List.find?_cons_of_pos _ ha] at h
        injection h with h
        subst h
        rw [updateFirstWhere, if_pos ha]
        rw [List.find?_cons_of_pos _ hf]
      · rw [List.find?_cons_of_neg _ ha] at h
        rw [updateFirstWhere, if_neg ha]
        rw [List.find?_cons_of_neg _ ha]
        exact ih h

theorem mem_updateFirstWhere_of_not (p : MDoc → Bool) (f : MDoc → MDoc) (l : List MDoc)
    (e : MDoc) (he : e ∈ l) (hp : p e = false) : e ∈ updateFirstWhere p f l := by
  induction l with
  | nil => simp at he
  | cons a l ih =>
      rw [updateFirstWhere]
      by_cases ha : p a
      · rw [if_pos ha]
        rcases List.mem_cons.mp he with rfl | hmem
        · rw [ha] at hp
          simp at hp
        · exact List.mem_cons_of_mem _ hmem
      · rw [if_neg ha]
        rcases List.mem_cons.mp he with rfl | hmem
        · exact List.mem_cons_self _ _
        · exact List.mem_cons_of_mem _ (ih hmem)

theorem countP_updateFirstWhere (p : MDoc → Bool) (f : MDoc → MDoc) (l : List MDoc)
    (hf : ∀ d, p d = true → p (f d) = true) :
    (updateFirstWhere p f l).countP p = l.countP p := by
  induction l with
  | nil => rfl
  | cons a l ih =>
      rw [updateFirstWhere]
      by_cases ha : p a
      · rw [if_pos ha]
        rw [List.countP_cons, List.countP_cons, ha, hf a ha]
      · rw [if_neg ha]
        rw [List.countP_cons, List.countP_cons, ih]

theorem keys_dropId_not_id (d : MDoc) : "id" ∉ (dropId d).map Prod.fst := by
  intro h
  obtain ⟨q, hq, hqk⟩ := List.mem_map.mp h
  have := (List.mem_filter.mp hq).2
  rw [hqk] at this
  simp at this

theorem nodup_keys_dropId (d : MDoc) (h : (d.map Prod.fst).Nodup) :
    ((dropId d).map Prod.fst).Nodup := by
  exact h.sublist (List.Sublist.map Prod.fst (List.filter_sublist d))

theorem mem_dropId_of_mem (d : MDoc) (k : String) (v : Val)
    (h : (k, v) ∈ d) (hk : k ≠ "id") : (k, v) ∈ dropId d := by
  rw [dropId, List.mem_filter]
  exact ⟨h, by simpa using hk⟩

theorem getF_dropId_of_not_hasKey (d : MDoc) (k : String)
    (h : hasKey d k = false) : hasKey (dropId d) k = false := by
  rw [hasKey, List.any_eq_false]
  intro q hq
  have hqd := (List.mem_filter.mp hq).1
  rw [hasKey, List.any_eq_false] at h
  exact h q hqd

theorem toHex24_length (n : Nat) : (toHex24 n).length = 24 := by
  rw [toHex24]
  simp [String.length]

theorem toHex24_ne_empty (n : Nat) : toHex24 n ≠ "" := by
  intro h
  have := toHex24_length n
  rw [h] at this
  simp [String.length] at this

theorem hasKey_filter_false (d : MDoc) (q : String × Val → Bool) (k : String)
    (h : hasKey d k = false) : hasKey (d.filter q) k = false := by
  rw [hasKey, List.any_eq_false]
  intro x hx
  have hxd := (List.mem_filter.mp hx).1
  rw [hasKey, List.any_eq_false] at h
  exact h x hxd

theorem filter_ne_of_not_hasKey (d : MDoc) (k : String) (h : hasKey d k = false) :
    d.filter (fun p => p.1 != k) = d := by
  rw [List.filter_eq_self]
  intro p hp
  rw [hasKey, List.any_eq_false] at h
  simpa using h p hp

theorem getF_transformDoc_oidKey (d t : MDoc)
    (ht : transformDoc d = Except.ok t) : getF t "_id" = none := by
  have hrest : getF (d.filter (fun p => p.1 != "_id")) "_id" = none :=
    getF_filterKey_self d "_id"
  simp only [transformDoc] at ht
  split at ht
  · injection ht with ht
    subst ht
    split
    · exact hrest
    · rw [getF_cons]
      have hne : ("id" == "_id") = false := by decide
      rw [hne]
      simp only [Bool.false_eq_true, if_false]
      exact hrest
  · split at ht
    · exact Except.noConfusion ht
    · injection ht with ht
      subst ht
      exact hrest
  · injection ht with ht
    subst ht
    exact hrest

theorem transformDoc_eq_of_fresh (d : MDoc) (h : String)
    (hid : getF d "_id" = some (Val.oid h)) (hno : hasKey d "id" = false) :
    transformDoc d
      = Except.ok (("id", Val.str h) :: d.filter (fun p => p.1 != "_id")) := by
  simp only [transformDoc, hid]
  rw [if_neg]
  intro hc
  rw [hasKey_filter_false d _ "id" hno] at hc
  exact Bool.false_ne_true hc

theorem getF_transformDoc_id (d : MDoc) (h : String) :
    getF (("id", Val.str h) :: d.filter (fun p => p.1 != "_id")) "id"
      = some (Val.str h) := by
  rw [getF_cons]
  simp

theorem getF_transformDoc_other (d : MDoc) (h : String) (k : String)
    (hk1 : k ≠ "id") (hk2 : k ≠ "_id") :
    getF (("id", Val.str h) :: d.filter (fun p => p.1 != "_id")) k = getF d k := by
  rw [getF_cons]
  have hne : ("id" == k) = false := by
    simp only [beq_eq_false_iff_ne, ne_eq]
    exact fun hh => hk1 hh.symm
  rw [hne]
  simp only [Bool.false_eq_true, if_false]
  exact getF_filterKey_ne d "_id" k hk2

/-! ## Behaviour of the shared handler cores -/

theorem connectDB_up (env : Env) (h : uriPresent env = true) :
    connectDB env StoreStatus.up = Except.ok () := by
  simp [connectDB, h]

theorem connectDB_down (env : Env) (raw : String) (h : uriPresent env = true) :
    connectDB env (StoreStatus.down raw) = Except.error (connectionErrorMessage raw) := by
  simp [connectDB, h]

theorem connectDB_noUri (env : Env) (st : StoreStatus) (h : uriPresent env = false) :
    connectDB env st = Except.error missingUriMessage := by
  simp [connectDB, h]

theorem putOneCore_badId (env : Env) (st : StoreStatus) (idStr : String) (body : MDoc)
    (coll : List MDoc) (nf : String) (h : getObjectId idStr = none) :
    putOneCore env st idStr body coll nf = (⟨400, RespBody.msg "Invalid ID format"⟩, coll) := by
  simp [putOneCore, h]

theorem putOneCore_connErr (env : Env) (st : StoreStatus) (idStr : String) (body : MDoc)
    (coll : List MDoc) (nf : String) (h : String) (m : String)
    (hoid : getObjectId idStr = some h) (hc : connectDB env st = Except.error m) :
    putOneCore env st idStr body coll nf = (⟨500, RespBody.msg m⟩, coll) := by
  simp [putOneCore, hoid, hc]

theorem putOneCore_found (env : Env) (st : StoreStatus) (idStr : String) (body : MDoc)
    (coll : List MDoc) (nf : String) (h : String) (d : MDoc)
    (hoid : getObjectId idStr = some h) (hc : connectDB env st = Except.ok ())
    (hfind : coll.find? (matchesOid h) = some d) :
    putOneCore env st idStr body coll nf =
      (⟨200, RespBody.doc body⟩,
       updateFirstWhere (matchesOid h) (fun x => applySet x (dropId body)) coll) := by
  have hany : coll.any (matchesOid h) = true :=
    List.any_eq_true.mpr ⟨d, List.mem_of_find?_eq_some hfind, List.find?_some hfind⟩
  simp [putOneCore, hoid, hc, hany]

theorem putOneCore_notFound (env : Env) (st : StoreStatus) (idStr : String) (body : MDoc)
    (coll : List MDoc) (nf : String) (h : String)
    (hoid : getObjectId idStr = some h) (hc : connectDB env st = Except.ok ())
    (hany : coll.any (matchesOid h) = false) :
    putOneCore env st idStr body coll nf = (⟨404, RespBody.msg nf⟩, coll) := by
  simp [putOneCore, hoid, hc, hany]

theorem deleteOneCore_badId (env : Env) (st : StoreStatus) (idStr : String)
    (coll : List MDoc) (nf : String) (h : getObjectId idStr = none) :
    deleteOneCore env st idStr coll nf =
      (⟨400, RespBody.msg "Invalid ID format"⟩, coll, false) := by
  simp [deleteOneCore, h]

theorem deleteOneCore_connErr (env : Env) (st : StoreStatus) (idStr : String)
    (coll : List MDoc) (nf : String) (h : String) (m : String)
    (hoid : getObjectId idStr = some h) (hc : connectDB env st = Except.error m) :
    deleteOneCore env st idStr coll nf = (⟨500, RespBody.msg m⟩, coll, false) := by
  simp [deleteOneCore, hoid, hc]

theorem deleteOneCore_found (env : Env) (st : StoreStatus) (idStr : String)
    (coll : List MDoc) (nf : String) (h : String)
    (hoid : getObjectId idStr = some h) (hc : connectDB env st = Except.ok ())
    (hany : coll.any (matchesOid h) = true) :
    deleteOneCore env st idStr coll nf =
      (⟨200, RespBody.success⟩, removeFirstWhere (matchesOid h) coll, true) := by
  simp [deleteOneCore, hoid, hc, hany]

theorem deleteOneCore_notFound (env : Env) (st : StoreStatus) (idStr : String)
    (coll : List MDoc) (nf : String) (h : String)
    (hoid : getObjectId idStr = some h) (hc : connectDB env st = Except.ok ())
    (hany : coll.any (matchesOid h) = false) :
    deleteOneCore env st idStr coll nf = (⟨404, RespBody.msg nf⟩, coll, false) := by
  simp [deleteOneCore, hoid, hc, hany]

theorem insertOne_fresh (coll : List MDoc) (next : Nat) (body : MDoc)
    (h : hasKey body "_id" = false) :
    insertOne coll next body =
      (coll ++ [body ++ [("_id", Val.oid (toHex24 next))]],
       Val.oid (toHex24 next), next + 1) := by
  simp [insertOne, getF_eq_none_of_not_hasKey body "_id" h]

theorem getF_oid_of_fresh (body : MDoc) (next : Nat)
    (h : hasKey body "_id" = false) :
    getF (body ++ [("_id", Val.oid (toHex24 next))]) "_id"
      = some (Val.oid (toHex24 next)) := by
  rw [getF_append, getF_eq_none_of_not_hasKey body "_id" h, getF_cons]
  simp

theorem hasKey_append (d e : MDoc) (k : String) :
    hasKey (d ++ e) k = (hasKey d k || hasKey e k) := by
  rw [hasKey, hasKey, hasKey, List.any_append]

theorem getF_append_single_ne (d : MDoc) (k0 k : String) (x : Val) (h : k ≠ k0) :
    getF (d ++ [(k0, x)]) k = getF d k := by
  rw [getF_append, getF_cons]
  have hk : (k0 == k) = false := by
    simp only [beq_eq_false_iff_ne, ne_eq]
    exact fun hh => h hh.symm
  rw [hk]
  simp only [Bool.false_eq_true, if_false, getF_nil]
  cases getF d k <;> rfl

theorem hasKey_fresh_doc_id (b : MDoc) (x : Val) (hb : hasKey b "id" = false) :
    hasKey (b ++ [("_id", x)]) "id" = false := by
  rw [hasKey_append, hb]
  rw [hasKey]
  simp

theorem filter_fresh_doc (body : MDoc) (x : Val) (h : hasKey body "_id" = false) :
    (body ++ [("_id", x)]).filter (fun p => p.1 != "_id") = body := by
  rw [List.filter_append, filter_ne_of_not_hasKey body "_id" h]
  simp

theorem transformDoc_fresh_doc (body : MDoc) (next : Nat)
    (hb : hasKey body "_id" = false) (hbid : hasKey body "id" = false) :
    transformDoc (body ++ [("_id", Val.oid (toHex24 next))])
      = Except.ok (("id", Val.str (toHex24 next)) :: body) := by
  have hnd : getF (body ++ [("_id", Val.oid (toHex24 next))]) "_id"
      = some (Val.oid (toHex24 next)) := getF_oid_of_fresh body next hb
  have hno : hasKey (body ++ [("_id", Val.oid (toHex24 next))]) "id" = false := by
    rw [hasKey_append, hbid]
    rw [hasKey]
    simp
  rw [transformDoc_eq_of_fresh _ _ hnd hno, filter_fresh_doc body _ hb]

theorem mapTransform_ok_of_oid (l : List MDoc)
    (h : ∀ d ∈ l, ∃ hh, getF d "_id" = some (Val.oid hh)) :
    ∃ ts, mapTransform l = Except.ok ts
      ∧ List.Forall₂ (fun d t => transformDoc d = Except.ok t) l ts := by
  induction l with
  | nil => exact ⟨[], rfl, List.Forall₂.nil⟩
  | cons d ds ih =>
      obtain ⟨hh, hd⟩ := h d (List.mem_cons_self _ _)
      have hok : transformDoc d
          = Except.ok (if hasKey (d.filter (fun p => p.1 != "_id")) "id"
              then d.filter (fun p => p.1 != "_id")
              else ("id", Val.str hh) :: d.filter (fun p => p.1 != "_id")) := by
        simp only [transformDoc, hd]
      obtain ⟨ts, hts, hf⟩ := ih (fun x hx => h x (List.mem_cons_of_mem _ hx))
      refine ⟨(if hasKey (d.filter (fun p => p.1 != "_id")) "id"
          then d.filter (fun p => p.1 != "_id")
          else ("id", Val.str hh) :: d.filter (fun p => p.1 != "_id")) :: ts, ?_, ?_⟩
      · rw [mapTransform, hok, hts]
      · exact List.Forall₂.cons hok hf

theorem mem_mapTransform (l : List MDoc) (ts : List MDoc) (d t : MDoc)
    (hmt : mapTransform l = Except.ok ts) (hd : d ∈ l)
    (ht : transformDoc d = Except.ok t) : t ∈ ts := by
  induction l generalizing ts with
  | nil => simp at hd
  | cons a l ih =>
      rw [mapTransform] at hmt
      cases hta : transformDoc a with
      | error e => rw [hta] at hmt; exact Except.noConfusion hmt
      | ok ta =>
          rw [hta] at hmt
          cases hml : mapTransform l with
          | error e => rw [hml] at hmt; exact Except.noConfusion hmt
          | ok ts2 =>
              rw [hml] at hmt
              injection hmt with hmt
              subst hmt
              rcases List.mem_cons.mp hd with rfl | hmem
              · rw [hta] at ht
                injection ht with ht
                subst ht
                exact List.mem_cons_self _ _
              · exact List.mem_cons_of_mem _ (ih ts2 hml hmem)

theorem postOneCore_fresh (env : Env) (st : StoreStatus) (body : MDoc)
    (coll : List MDoc) (next : Nat)
    (hc : connectDB env st = Except.ok ())
    (hb : hasKey body "_id" = false)
    (hbid : hasKey body "id" = false)
    (hfresh : ∀ d ∈ coll, getF d "_id" ≠ some (Val.oid (toHex24 next))) :
    postOneCore env st body coll next =
      (⟨201, RespBody.doc (("id", Val.str (toHex24 next)) :: body)⟩,
       coll ++ [body ++ [("_id", Val.oid (toHex24 next))]], next + 1) := by
  have hins := insertOne_fresh coll next body hb
  have hfc : coll.find? (fun d => getF d "_id" == some (Val.oid (toHex24 next))) = none := by
    rw [List.find?_eq_none]
    intro d hd
    simpa using hfresh d hd
  have hnd : getF (body ++ [("_id", Val.oid (toHex24 next))]) "_id"
      = some (Val.oid (toHex24 next)) := getF_oid_of_fresh body next hb
  have htd := transformDoc_fresh_doc body next hb hbid
  simp only [postOneCore, hc, hins]
  rw [List.find?_append, hfc]
  rw [List.find?_cons_of_pos _ (by simp [hnd])]
  simp [htd]

theorem insertDocs_mem (bodies : List MDoc) (next : Nat)
    (hb : ∀ b ∈ bodies, hasKey b "_id" = false) (i : Nat) (hi : i < bodies.length) :
    (bodies.get ⟨i, hi⟩ ++ [("_id", Val.oid (toHex24 (next + i)))]) ∈ (insertDocs next bodies).1
    ∧ Val.oid (toHex24 (next + i)) ∈ ((insertDocs next bodies).2).1 := by
  induction bodies generalizing next i with
  | nil => simp at hi
  | cons b bs ih =>
      have hbnone : getF b "_id" = none :=
        getF_eq_none_of_not_hasKey b "_id" (hb b (List.mem_cons_self _ _))
      rw [insertDocs]
      rw [hbnone]
      cases i with
      | zero =>
          constructor
          · exact List.mem_cons_self _ _
          · exact List.mem_cons_self _ _
      | succ j =>
          have hj : j < bs.length := Nat.lt_of_succ_lt_succ hi
          have hb2 : ∀ x ∈ bs, hasKey x "_id" = false := fun x hx =>
            hb x (List.mem_cons_of_mem _ hx)
          have hrec := ih (next + 1) hb2 j hj
          have hidx : next + 1 + j = next + (j + 1) := by omega
          rw [hidx] at hrec
          constructor
          · exact List.mem_cons_of_mem _ hrec.1
          · exact List.mem_cons_of_mem _ hrec.2

theorem getObjectId_valid (s : String) (h : isValidObjectId s = true) :
    getObjectId s = some (lowerString s) := by
  simp [getObjectId, h]

theorem getObjectId_invalid (s : String) (h : isValidObjectId s = false) :
    getObjectId s = none := by
  simp [getObjectId, h]

theorem handle_connect_error (env : Env) (st : StoreStatus) (req : Request)
    (db : DB) (m : String) (hc : connectDB env st = Except.error m)
    (hwf : wellFormedReq req) :
    handle env st req db = (⟨500, RespBody.msg m⟩, db) := by
  cases req with
  | getData => simp [handle, getDataHandler, hc]
  | postProjects bodies => simp [handle, postProjectsHandler, hc]
  | putProject s b =>
      rw [wellFormedReq] at hwf
      simp [handle, putProjectHandler,
        putOneCore_connErr env st s b db.projects "Project not found" (lowerString s) m
          (getObjectId_valid s hwf) hc]
  | deleteProject s =>
      rw [wellFormedReq] at hwf
      simp [handle, deleteProjectHandler,
        deleteOneCore_connErr env st s db.projects "Project not found" (lowerString s) m
          (getObjectId_valid s hwf) hc]
  | postJudges b => simp [handle, postJudgesHandler, postOneCore, hc]
  | putJudge s b =>
      rw [wellFormedReq] at hwf
      simp [handle, putJudgeHandler,
        putOneCore_connErr env st s b db.judges "Judge not found" (lowerString s) m
          (getObjectId_valid s hwf) hc]
  | deleteJudge s =>
      rw [wellFormedReq] at hwf
      simp [handle, deleteJudgeHandler,
        deleteOneCore_connErr env st s db.judges "Judge not found" (lowerString s) m
          (getObjectId_valid s hwf) hc]
  | postCriteria b => simp [handle, postCriteriaHandler, postOneCore, hc]
  | putCriterion s b =>
      rw [wellFormedReq] at hwf
      simp [handle, putCriterionHandler,
        putOneCore_connErr env st s b db.criteria "Criterion not found" (lowerString s) m
          (getObjectId_valid s hwf) hc]
  | deleteCriterion s =>
      rw [wellFormedReq] at hwf
      simp [handle, deleteCriterionHandler,
        deleteOneCore_connErr env st s db.criteria "Criterion not found" (lowerString s) m
          (getObjectId_valid s hwf) hc]
  | postScores b => simp [handle, postScoresHandler, hc]
  | deleteScore s => simp [handle, deleteScoreHandler, hc]

/-! ## Claim theorems -/

/-- C7: on every update or delete route, a malformed (non-conforming)
identifier string makes the request fail with the 400 "Invalid ID format"
validation response before any storage operation is attempted: the result
is the same for every store status (even unreachable) and the store state
is unchanged. -/
theorem malformed_id_validation_before_storage (env : Env) (st : StoreStatus)
    (req : Request) (db : DB) (h : malformedIdRequest req) :
    handle env st req db = (⟨400, RespBody.msg "Invalid ID format"⟩, db) := by
  cases req with
  | getData => exact False.elim h
  | postProjects bodies => exact False.elim h
  | putProject s b =>
      rw [malformedIdRequest] at h
      simp [handle, putProjectHandler,
        putOneCore_badId env st s b db.projects "Project not found" (getObjectId_invalid s h)]
  | deleteProject s =>
      rw [malformedIdRequest] at h
      simp [handle, deleteProjectHandler,
        deleteOneCore_badId env st s db.projects "Project not found" (getObjectId_invalid s h)]
  | postJudges b => exact False.elim h
  | putJudge s b =>
      rw [malformedIdRequest] at h
      simp [handle, putJudgeHandler,
        putOneCore_badId env st s b db.judges "Judge not found" (getObjectId_invalid s h)]
  | deleteJudge s =>
      rw [malformedIdRequest] at h
      simp [handle, deleteJudgeHandler,
        deleteOneCore_badId env st s db.judges "Judge not found" (getObjectId_invalid s h)]
  | postCriteria b => exact False.elim h
  | putCriterion s b =>
      rw [malformedIdRequest] at h
      simp [handle, putCriterionHandler,
        putOneCore_badId env st s b db.criteria "Criterion not found" (getObjectId_invalid s h)]
  | deleteCriterion s =>
      rw [malformedIdRequest] at h
      simp [handle, deleteCriterionHandler,
        deleteOneCore_badId env st s db.criteria "Criterion not found" (getObjectId_invalid s h)]
  | postScores b => exact False.elim h
  | deleteScore s => exact False.elim h

/-- Witness for C7: the malformed id "zz" on the project update route is
rejected with 400 and the store is unchanged, even with the store down. -/
theorem malformed_id_validation_before_storage_witness :
    malformedIdRequest (Request.putProject "zz" [("name", Val.str "x")])
    ∧ handle ⟨some "mongodb://h/db", none⟩ (StoreStatus.down "timeout")
        (Request.putProject "zz" [("name", Val.str "x")]) ⟨[], [], [], [], 0⟩
      = (⟨400, RespBody.msg "Invalid ID format"⟩, ⟨[], [], [], [], 0⟩) :=
  ⟨by rw [malformedIdRequest]; decide,
   malformed_id_validation_before_storage ⟨some "mongodb://h/db", none⟩
     (StoreStatus.down "timeout") (Request.putProject "zz" [("name", Val.str "x")])
     ⟨[], [], [], [], 0⟩ (by rw [malformedIdRequest]; decide)⟩

/-- C8: when the store is unreachable, every read and mutating endpoint
(with a well-formed identifier where the route validates one) returns the
500 connection-error response with the mapped human-readable message and
leaves the store state unchanged; the auth-failure and timeout sub-cases
are mapped to messages distinct from each other and from the generic
message. -/
theorem store_unreachable_connection_error (env : Env) (raw : String)
    (req : Request) (db : DB) (huri : uriPresent env = true)
    (hwf : wellFormedReq req) :
    handle env (StoreStatus.down raw) req db
      = (⟨500, RespBody.msg (connectionErrorMessage raw)⟩, db)
    ∧ (containsSub raw "bad auth" = true → connectionErrorMessage raw = authFailMessage)
    ∧ (containsSub raw "bad auth" = false → containsSub raw "timeout" = true →
        connectionErrorMessage raw = timeoutMessage)
    ∧ (containsSub raw "bad auth" = false → containsSub raw "timeout" = false →
        connectionErrorMessage raw = genericConnMessage)
    ∧ authFailMessage ≠ timeoutMessage
    ∧ authFailMessage ≠ genericConnMessage
    ∧ timeoutMessage ≠ genericConnMessage := by
  refine ⟨handle_connect_error env (StoreStatus.down raw) req db
      (connectionErrorMessage raw) (connectDB_down env raw huri) hwf,
    ?_, ?_, ?_, by decide, by decide, by decide⟩
  · intro h1
    simp [connectionErrorMessage, h1]
  · intro h1 h2
    simp [connectionErrorMessage, h1, h2]
  · intro h1 h2
    simp [connectionErrorMessage, h1, h2]

/-- Witness for C8: with the store down with a raw "connection timeout"
driver error, the snapshot read returns the 500 timeout message and the
store is unchanged. -/
theorem store_unreachable_connection_error_witness :
    uriPresent ⟨some "mongodb://h/db", none⟩ = true
    ∧ wellFormedReq Request.getData
    ∧ (handle ⟨some "mongodb://h/db", none⟩ (StoreStatus.down "connection timeout")
          Request.getData ⟨[], [], [], [], 0⟩
        = (⟨500, RespBody.msg (connectionErrorMessage "connection timeout")⟩,
           ⟨[], [], [], [], 0⟩)
       ∧ (containsSub "connection timeout" "bad auth" = true →
           connectionErrorMessage "connection timeout" = authFailMessage)
       ∧ (containsSub "connection timeout" "bad auth" = false →
           containsSub "connection timeout" "timeout" = true →
           connectionErrorMessage "connection timeout" = timeoutMessage)
       ∧ (containsSub "connection timeout" "bad auth" = false →
           containsSub "connection timeout" "timeout" = false →
           connectionErrorMessage "connection timeout" = genericConnMessage)
       ∧ authFailMessage ≠ timeoutMessage
       ∧ authFailMessage ≠ genericConnMessage
       ∧ timeoutMessage ≠ genericConnMessage) :=
  ⟨by decide, trivial,
   store_unreachable_connection_error ⟨some "mongodb://h/db", none⟩
     "connection timeout" Request.getData ⟨[], [], [], [], 0⟩ (by decide) trivial⟩

/-- C9: when the database connection string is absent, request handling
fails with the fatal configuration error (a 500 response carrying the
missing-URI message, the request is not served) for every endpoint; and
when the listen port is unset the default port 3001 is used. -/
theorem env_config_fatal_uri_default_port (env : Env) (st : StoreStatus)
    (req : Request) (db : DB) (huri : uriPresent env = false)
    (hwf : wellFormedReq req) :
    handle env st req db = (⟨500, RespBody.msg missingUriMessage⟩, db)
    ∧ ∀ u : Option String, resolvedPort ⟨u, none⟩ = PortSetting.defaultPort 3001 :=
  ⟨handle_connect_error env st req db missingUriMessage
     (connectDB_noUri env st huri) hwf,
   fun _ => rfl⟩

/-- Witness for C9: with no `MONGODB_URI`, the score upsert request fails
with the missing-URI error and stores nothing, and an unset `PORT`
resolves to the default 3001. -/
theorem env_config_fatal_uri_default_port_witness :
    uriPresent ⟨none, none⟩ = false
    ∧ wellFormedReq (Request.postScores [("id", Val.str "S1")])
    ∧ (handle ⟨none, none⟩ StoreStatus.up (Request.postScores [("id", Val.str "S1")])
          ⟨[], [], [], [], 0⟩
        = (⟨500, RespBody.msg missingUriMessage⟩, ⟨[], [], [], [], 0⟩)
       ∧ ∀ u : Option String, resolvedPort ⟨u, none⟩ = PortSetting.defaultPort 3001) :=
  ⟨rfl, trivial,
   env_config_fatal_uri_default_port ⟨none, none⟩ StoreStatus.up
     (Request.postScores [("id", Val.str "S1")]) ⟨[], [], [], [], 0⟩ rfl trivial⟩

/-- C10: cascade deletion is conditional on the parent delete succeeding:
when a delete of a Project or Judge targets a well-formed id that matches
no document, the handler returns 404 and the whole store state — in
particular the scores collection — is unchanged (no Score is deleted on
the error path). -/
theorem delete_missing_target_no_cascade (env : Env) (st : StoreStatus)
    (db : DB) (hc : connectDB env st = Except.ok ()) :
    (∀ idStr h, getObjectId idStr = some h →
       db.projects.any (matchesOid h) = false →
       handle env st (Request.deleteProject idStr) db
         = (⟨404, RespBody.msg "Project not found"⟩, db))
    ∧ (∀ idStr h, getObjectId idStr = some h →
       db.judges.any (matchesOid h) = false →
       handle env st (Request.deleteJudge idStr) db
         = (⟨404, RespBody.msg "Judge not found"⟩, db)) := by
  constructor
  · intro idStr h hoid hany
    simp [handle, deleteProjectHandler,
      deleteOneCore_notFound env st idStr db.projects "Project not found" h hoid hc hany]
  · intro idStr h hoid hany
    simp [handle, deleteJudgeHandler,
      deleteOneCore_notFound env st idStr db.judges "Judge not found" h hoid hc hany]

/-- Witness for C10: deleting the well-formed but absent project id (all
"a") from a store holding one unrelated project and one score referencing
it returns 404 and leaves both collections, scores included, unchanged. -/
theorem delete_missing_target_no_cascade_witness :
    connectDB ⟨some "mongodb://h/db", none⟩ StoreStatus.up = Except.ok ()
    ∧ getObjectId "aaaaaaaaaaaaaaaaaaaaaaaa" = some "aaaaaaaaaaaaaaaaaaaaaaaa"
    ∧ (DB.mk [[("_id", Val.oid "bbbbbbbbbbbbbbbbbbbbbbbb")]] [] []
         [[("id", Val.str "S1"), ("projectId", Val.str "bbbbbbbbbbbbbbbbbbbbbbbb")]] 7).projects.any
        (matchesOid "aaaaaaaaaaaaaaaaaaaaaaaa") = false
    ∧ handle ⟨some "mongodb://h/db", none⟩ StoreStatus.up
        (Request.deleteProject "aaaaaaaaaaaaaaaaaaaaaaaa")
        (DB.mk [[("_id", Val.oid "bbbbbbbbbbbbbbbbbbbbbbbb")]] [] []
           [[("id", Val.str "S1"), ("projectId", Val.str "bbbbbbbbbbbbbbbbbbbbbbbb")]] 7)
      = (⟨404, RespBody.msg "Project not found"⟩,
         DB.mk [[("_id", Val.oid "bbbbbbbbbbbbbbbbbbbbbbbb")]] [] []
           [[("id", Val.str "S1"), ("projectId", Val.str "bbbbbbbbbbbbbbbbbbbbbbbb")]] 7) :=
  ⟨rfl, by decide, by decide,
   (delete_missing_target_no_cascade ⟨some "mongodb://h/db", none⟩ StoreStatus.up
      (DB.mk [[("_id", Val.oid "bbbbbbbbbbbbbbbbbbbbbbbb")]] [] []
         [[("id", Val.str "S1"), ("projectId", Val.str "bbbbbbbbbbbbbbbbbbbbbbbb")]] 7)
      rfl).1 "aaaaaaaaaaaaaaaaaaaaaaaa" "aaaaaaaaaaaaaaaaaaaaaaaa" (by decide) (by decide)⟩

/-- C6: for every entity type, an update with a well-formed id that
matches no stored document yields the 404 NotFound response and stores
nothing (the store state is unchanged). -/
theorem update_missing_target_not_found (env : Env) (st : StoreStatus)
    (db : DB) (hc : connectDB env st = Except.ok ()) :
    (∀ idStr h body, getObjectId idStr = some h →
       db.projects.any (matchesOid h) = false →
       handle env st (Request.putProject idStr body) db
         = (⟨404, RespBody.msg "Project not found"⟩, db))
    ∧ (∀ idStr h body, getObjectId idStr = some h →
       db.judges.any (matchesOid h) = false →
       handle env st (Request.putJudge idStr body) db
         = (⟨404, RespBody.msg "Judge not found"⟩, db))
    ∧ (∀ idStr h body, getObjectId idStr = some h →
       db.criteria.any (matchesOid h) = false →
       handle env st (Request.putCriterion idStr body) db
         = (⟨404, RespBody.msg "Criterion not found"⟩, db)) := by
  refine ⟨?_, ?_, ?_⟩
  · intro idStr h body hoid hany
    simp [handle, putProjectHandler,
      putOneCore_notFound env st idStr body db.projects "Project not found" h hoid hc hany]
  · intro idStr h body hoid hany
    simp [handle, putJudgeHandler,
      putOneCore_notFound env st idStr body db.judges "Judge not found" h hoid hc hany]
  · intro idStr h body hoid hany
    simp [handle, putCriterionHandler,
      putOneCore_notFound env st idStr body db.criteria "Criterion not found" h hoid hc hany]

/-- Witness for C6: updating the absent judge id (all "c") on an empty
store yields 404 and leaves the store unchanged. -/
theorem update_missing_target_not_found_witness :
    connectDB ⟨some "mongodb://h/db", none⟩ StoreStatus.up = Except.ok ()
    ∧ getObjectId "cccccccccccccccccccccccc" = some "cccccccccccccccccccccccc"
    ∧ (DB.mk [] [] [] [] 0).judges.any (matchesOid "cccccccccccccccccccccccc") = false
    ∧ handle ⟨some "mongodb://h/db", none⟩ StoreStatus.up
        (Request.putJudge "cccccccccccccccccccccccc" [("name", Val.str "J")])
        (DB.mk [] [] [] [] 0)
      = (⟨404, RespBody.msg "Judge not found"⟩, DB.mk [] [] [] [] 0) :=
  ⟨rfl, by decide, by decide,
   (update_missing_target_not_found ⟨some "mongodb://h/db", none⟩ StoreStatus.up
      (DB.mk [] [] [] [] 0) rfl).2.1 "cccccccccccccccccccccccc"
     "cccccccccccccccccccccccc" [("name", Val.str "J")] (by decide) (by decide)⟩

/-- C2: deleting a Project whose id matches a stored document also deletes
every Score whose `projectId` equals the given id string, leaving zero
scores referencing it (and keeping exactly the non-referencing scores);
deleting a Judge cascades in the same way on `judgeId`. -/
theorem delete_cascades_scores (env : Env) (st : StoreStatus) (db : DB)
    (idStr : String) (h : String)
    (hc : connectDB env st = Except.ok ())
    (hoid : getObjectId idStr = some h) :
    (db.projects.any (matchesOid h) = true →
       (handle env st (Request.deleteProject idStr) db).1 = ⟨200, RespBody.success⟩
       ∧ (handle env st (Request.deleteProject idStr) db).2.scores
           = db.scores.filter (fun d => !(getF d "projectId" == some (Val.str idStr)))
       ∧ ∀ d ∈ (handle env st (Request.deleteProject idStr) db).2.scores,
           ¬ getF d "projectId" = some (Val.str idStr))
    ∧ (db.judges.any (matchesOid h) = true →
       (handle env st (Request.deleteJudge idStr) db).1 = ⟨200, RespBody.success⟩
       ∧ (handle env st (Request.deleteJudge idStr) db).2.scores
           = db.scores.filter (fun d => !(getF d "judgeId" == some (Val.str idStr)))
       ∧ ∀ d ∈ (handle env st (Request.deleteJudge idStr) db).2.scores,
           ¬ getF d "judgeId" = some (Val.str idStr)) := by
  constructor
  · intro hany
    have hcore := deleteOneCore_found env st idStr db.projects "Project not found" h hoid hc hany
    have hh : handle env st (Request.deleteProject idStr) db
        = (⟨200, RespBody.success⟩,
           { db with
             projects := removeFirstWhere (matchesOid h) db.projects,
             scores := db.scores.filter (fun d =>
               !(getF d "projectId" == some (Val.str idStr))) }) := by
      simp [handle, deleteProjectHandler, hcore]
    rw [hh]
    refine ⟨rfl, rfl, ?_⟩
    intro d hd
    have hmem := (List.mem_filter.mp hd).2
    simp only [Bool.not_eq_true', beq_eq_false_iff_ne, ne_eq] at hmem
    exact hmem
  · intro hany
    have hcore := deleteOneCore_found env st idStr db.judges "Judge not found" h hoid hc hany
    have hh : handle env st (Request.deleteJudge idStr) db
        = (⟨200, RespBody.success⟩,
           { db with
             judges := removeFirstWhere (matchesOid h) db.judges,
             scores := db.scores.filter (fun d =>
               !(getF d "judgeId" == some (Val.str idStr))) }) := by
      simp [handle, deleteJudgeHandler, hcore]
    rw [hh]
    refine ⟨rfl, rfl, ?_⟩
    intro d hd
    have hmem := (List.mem_filter.mp hd).2
    simp only [Bool.not_eq_true', beq_eq_false_iff_ne, ne_eq] at hmem
    exact hmem

/-- Witness for C2: deleting project `bb…b` (which two of three stored
scores reference by `projectId`) succeeds and leaves exactly the one
non-referencing score. -/
theorem delete_cascades_scores_witness :
    connectDB ⟨some "mongodb://h/db", none⟩ StoreStatus.up = Except.ok ()
    ∧ getObjectId "bbbbbbbbbbbbbbbbbbbbbbbb" = some "bbbbbbbbbbbbbbbbbbbbbbbb"
    ∧ (DB.mk [[("_id", Val.oid "bbbbbbbbbbbbbbbbbbbbbbbb"), ("name", Val.str "P1")]] [] []
         [[("id", Val.str "S1"), ("projectId", Val.str "bbbbbbbbbbbbbbbbbbbbbbbb")],
          [("id", Val.str "S2"), ("projectId", Val.str "bbbbbbbbbbbbbbbbbbbbbbbb")],
          [("id", Val.str "S3"), ("projectId", Val.str "other")]] 4).projects.any
        (matchesOid "bbbbbbbbbbbbbbbbbbbbbbbb") = true
    ∧ ((handle ⟨some "mongodb://h/db", none⟩ StoreStatus.up
          (Request.deleteProject "bbbbbbbbbbbbbbbbbbbbbbbb")
          (DB.mk [[("_id", Val.oid "bbbbbbbbbbbbbbbbbbbbbbbb"), ("name", Val.str "P1")]] [] []
             [[("id", Val.str "S1"), ("projectId", Val.str "bbbbbbbbbbbbbbbbbbbbbbbb")],
              [("id", Val.str "S2"), ("projectId", Val.str "bbbbbbbbbbbbbbbbbbbbbbbb")],
              [("id", Val.str "S3"), ("projectId", Val.str "other")]] 4)).1
        = ⟨200, RespBody.success⟩
       ∧ (handle ⟨some "mongodb://h/db", none⟩ StoreStatus.up
            (Request.deleteProject "bbbbbbbbbbbbbbbbbbbbbbbb")
            (DB.mk [[("_id", Val.oid "bbbbbbbbbbbbbbbbbbbbbbbb"), ("name", Val.str "P1")]] [] []
               [[("id", Val.str "S1"), ("projectId", Val.str "bbbbbbbbbbbbbbbbbbbbbbbb")],
                [("id", Val.str "S2"), ("projectId", Val.str "bbbbbbbbbbbbbbbbbbbbbbbb")],
                [("id", Val.str "S3"), ("projectId", Val.str "other")]] 4)).2.scores
          = (DB.mk [[("_id", Val.oid "bbbbbbbbbbbbbbbbbbbbbbbb"), ("name", Val.str "P1")]] [] []
               [[("id", Val.str "S1"), ("projectId", Val.str "bbbbbbbbbbbbbbbbbbbbbbbb")],
                [("id", Val.str "S2"), ("projectId", Val.str "bbbbbbbbbbbbbbbbbbbbbbbb")],
                [("id", Val.str "S3"), ("projectId", Val.str "other")]] 4).scores.filter
              (fun d => !(getF d "projectId" == some (Val.str "bbbbbbbbbbbbbbbbbbbbbbbb")))
       ∧ ∀ d ∈ (handle ⟨some "mongodb://h/db", none⟩ StoreStatus.up
            (Request.deleteProject "bbbbbbbbbbbbbbbbbbbbbbbb")
            (DB.mk [[("_id", Val.oid "bbbbbbbbbbbbbbbbbbbbbbbb"), ("name", Val.str "P1")]] [] []
               [[("id", Val.str "S1"), ("projectId", Val.str "bbbbbbbbbbbbbbbbbbbbbbbb")],
                [("id", Val.str "S2"), ("projectId", Val.str "bbbbbbbbbbbbbbbbbbbbbbbb")],
                [("id", Val.str "S3"), ("projectId", Val.str "other")]] 4)).2.scores,
           ¬ getF d "projectId" = some (Val.str "bbbbbbbbbbbbbbbbbbbbbbbb")) :=
  ⟨rfl, by decide, by decide,
   (delete_cascades_scores ⟨some "mongodb://h/db", none⟩ StoreStatus.up
      (DB.mk [[("_id", Val.oid "bbbbbbbbbbbbbbbbbbbbbbbb"), ("name", Val.str "P1")]] [] []
         [[("id", Val.str "S1"), ("projectId", Val.str "bbbbbbbbbbbbbbbbbbbbbbbb")],
          [("id", Val.str "S2"), ("projectId", Val.str "bbbbbbbbbbbbbbbbbbbbbbbb")],
          [("id", Val.str "S3"), ("projectId", Val.str "other")]] 4)
      "bbbbbbbbbbbbbbbbbbbbbbbb" "bbbbbbbbbbbbbbbbbbbbbbbb" rfl (by decide)).1 (by decide)⟩

/-- C3: on a store whose project, judge and criterion documents all carry
ObjectId storage keys (as every document created through the API's own
create routes with id-less payloads does), the full-snapshot read
returns 200 with each of the three collections transformed element-wise
by `transformDoc` and the scores as stored; every document `transformDoc`
returns has lost the storage-native `_id` key, and a document with an
ObjectId `_id` and no `id` binding is transformed to exactly
`{id: hex(_id), ...rest}`: the storage key as a string `id` and every
other field unchanged. -/
theorem snapshot_output_normalization (env : Env) (st : StoreStatus) (db : DB)
    (hc : connectDB env st = Except.ok ())
    (hp : ∀ d ∈ db.projects, ∃ h, getF d "_id" = some (Val.oid h))
    (hj : ∀ d ∈ db.judges, ∃ h, getF d "_id" = some (Val.oid h))
    (hcr : ∀ d ∈ db.criteria, ∃ h, getF d "_id" = some (Val.oid h)) :
    (∃ ps js cs,
       mapTransform db.projects = Except.ok ps
       ∧ mapTransform db.judges = Except.ok js
       ∧ mapTransform db.criteria = Except.ok cs
       ∧ handle env st Request.getData db
           = (⟨200, RespBody.snapshot ps js cs db.scores⟩, db)
       ∧ List.Forall₂ (fun d t => transformDoc d = Except.ok t) db.projects ps
       ∧ List.Forall₂ (fun d t => transformDoc d = Except.ok t) db.judges js
       ∧ List.Forall₂ (fun d t => transformDoc d = Except.ok t) db.criteria cs)
    ∧ (∀ d t : MDoc, transformDoc d = Except.ok t → getF t "_id" = none)
    ∧ (∀ (d : MDoc) (h : String), getF d "_id" = some (Val.oid h) →
         hasKey d "id" = false →
         transformDoc d
           = Except.ok (("id", Val.str h) :: d.filter (fun p => p.1 != "_id"))
         ∧ getF (("id", Val.str h) :: d.filter (fun p => p.1 != "_id")) "id"
             = some (Val.str h)
         ∧ ∀ k, k ≠ "id" → k ≠ "_id" →
             getF (("id", Val.str h) :: d.filter (fun p => p.1 != "_id")) k
               = getF d k) := by
  refine ⟨?_, getF_transformDoc_oidKey, ?_⟩
  · obtain ⟨ps, hps, hfp⟩ := mapTransform_ok_of_oid db.projects hp
    obtain ⟨js, hjs, hfj⟩ := mapTransform_ok_of_oid db.judges hj
    obtain ⟨cs, hcs, hfc⟩ := mapTransform_ok_of_oid db.criteria hcr
    refine ⟨ps, js, cs, hps, hjs, hcs, ?_, hfp, hfj, hfc⟩
    simp [handle, getDataHandler, hc, hps, hjs, hcs]
  · intro d h hid hno
    exact ⟨transformDoc_eq_of_fresh d h hid hno, getF_transformDoc_id d h,
           fun k hk1 hk2 => getF_transformDoc_other d h k hk1 hk2⟩

/-- Witness for C3: on a store with one project (ObjectId `_id` and a
name) and one raw score, the snapshot read returns 200 pairing the
transformed project with the score as stored; the transform on the
project document succeeds with `id` = hex of the storage key, no `_id`,
and the name unchanged. -/
theorem snapshot_output_normalization_witness :
    connectDB ⟨some "mongodb://h/db", none⟩ StoreStatus.up = Except.ok ()
    ∧ (∀ d ∈ (DB.mk [[("_id", Val.oid "dddddddddddddddddddddddd"), ("name", Val.str "P")]]
          [] [] [[("id", Val.str "S1"), ("value", Val.num 8),
                  ("_id", Val.oid "eeeeeeeeeeeeeeeeeeeeeeee")]] 3).projects,
        ∃ h, getF d "_id" = some (Val.oid h))
    ∧ (∃ ps js cs,
        mapTransform (DB.mk [[("_id", Val.oid "dddddddddddddddddddddddd"),
            ("name", Val.str "P")]] [] []
            [[("id", Val.str "S1"), ("value", Val.num 8),
              ("_id", Val.oid "eeeeeeeeeeeeeeeeeeeeeeee")]] 3).projects = Except.ok ps
        ∧ mapTransform ([] : List MDoc) = Except.ok js
        ∧ mapTransform ([] : List MDoc) = Except.ok cs
        ∧ handle ⟨some "mongodb://h/db", none⟩ StoreStatus.up Request.getData
            (DB.mk [[("_id", Val.oid "dddddddddddddddddddddddd"), ("name", Val.str "P")]]
               [] [] [[("id", Val.str "S1"), ("value", Val.num 8),
                       ("_id", Val.oid "eeeeeeeeeeeeeeeeeeeeeeee")]] 3)
            = (⟨200, RespBody.snapshot ps js cs
                 [[("id", Val.str "S1"), ("value", Val.num 8),
                   ("_id", Val.oid "eeeeeeeeeeeeeeeeeeeeeeee")]]⟩,
               DB.mk [[("_id", Val.oid "dddddddddddddddddddddddd"), ("name", Val.str "P")]]
                 [] [] [[("id", Val.str "S1"), ("value", Val.num 8),
                         ("_id", Val.oid "eeeeeeeeeeeeeeeeeeeeeeee")]] 3))
    ∧ handle ⟨some "mongodb://h/db", none⟩ StoreStatus.up Request.getData
        (DB.mk [[("_id", Val.oid "dddddddddddddddddddddddd"), ("name", Val.str "P")]]
           [] [] [[("id", Val.str "S1"), ("value", Val.num 8),
                   ("_id", Val.oid "eeeeeeeeeeeeeeeeeeeeeeee")]] 3)
        = (⟨200, RespBody.snapshot
              [[("id", Val.str "dddddddddddddddddddddddd"), ("name", Val.str "P")]]
              [] []
              [[("id", Val.str "S1"), ("value", Val.num 8),
                ("_id", Val.oid "eeeeeeeeeeeeeeeeeeeeeeee")]]⟩,
           DB.mk [[("_id", Val.oid "dddddddddddddddddddddddd"), ("name", Val.str "P")]]
             [] [] [[("id", Val.str "S1"), ("value", Val.num 8),
                     ("_id", Val.oid "eeeeeeeeeeeeeeeeeeeeeeee")]] 3)
    ∧ transformDoc [("_id", Val.oid "dddddddddddddddddddddddd"), ("name", Val.str "P")]
        = Except.ok [("id", Val.str "dddddddddddddddddddddddd"), ("name", Val.str "P")] := by
  have hmain := snapshot_output_normalization ⟨some "mongodb://h/db", none⟩ StoreStatus.up
    (DB.mk [[("_id", Val.oid "dddddddddddddddddddddddd"), ("name", Val.str "P")]]
       [] [] [[("id", Val.str "S1"), ("value", Val.num 8),
               ("_id", Val.oid "eeeeeeeeeeeeeeeeeeeeeeee")]] 3) rfl
    (by intro d hd; simp at hd; rw [hd]; exact ⟨"dddddddddddddddddddddddd", rfl⟩)
    (by intro d hd; simp at hd)
    (by intro d hd; simp at hd)
  obtain ⟨ps, js, cs, h1, h2, h3, h4, _, _, _⟩ := hmain.1
  refine ⟨rfl,
    by intro d hd; simp at hd; rw [hd]; exact ⟨"dddddddddddddddddddddddd", rfl⟩,
    ⟨ps, js, cs, h1, h2, h3, h4⟩, by decide, rfl⟩

theorem not_keys_dropId_of_not_hasKey (body : MDoc) (k : String)
    (h : hasKey body k = false) : k ∉ (dropId body).map Prod.fst := by
  intro hin
  obtain ⟨q, hq, hqk⟩ := List.mem_map.mp hin
  have hqb := (List.mem_filter.mp hq).1
  rw [hasKey, List.any_eq_false] at h
  exact h q hqb (by simp [hqk])

theorem applySet_dropId_fields (d body : MDoc)
    (hnodup : (body.map Prod.fst).Nodup) :
    (∀ k v, (k, v) ∈ body → k ≠ "id" → getF (applySet d (dropId body)) k = some v)
    ∧ (∀ k, hasKey body k = false → getF (applySet d (dropId body)) k = getF d k)
    ∧ getF (applySet d (dropId body)) "id" = getF d "id" := by
  refine ⟨?_, ?_, ?_⟩
  · intro k v hkv hk
    exact getF_applySet_mem d (dropId body) k v (nodup_keys_dropId body hnodup)
      (mem_dropId_of_mem body k v hkv hk)
  · intro k hk
    exact getF_applySet_not_mem d (dropId body) k (not_keys_dropId_of_not_hasKey body k hk)
  · exact getF_applySet_not_mem d (dropId body) "id" (keys_dropId_not_id body)

theorem matchesOid_applySet_dropId (h : String) (d body : MDoc)
    (hnid : hasKey body "_id" = false) (hd : matchesOid h d = true) :
    matchesOid h (applySet d (dropId body)) = true := by
  rw [matchesOid] at hd ⊢
  rw [getF_applySet_not_mem d (dropId body) "_id"
    (not_keys_dropId_of_not_hasKey body "_id" hnid)]
  exact hd

theorem putOneCore_frame (env : Env) (st : StoreStatus) (idStr : String) (body : MDoc)
    (coll : List MDoc) (nf : String) (h : String) (d : MDoc)
    (hoid : getObjectId idStr = some h) (hc : connectDB env st = Except.ok ())
    (hfind : coll.find? (matchesOid h) = some d)
    (hnid : hasKey body "_id" = false) :
    (putOneCore env st idStr body coll nf).1 = ⟨200, RespBody.doc body⟩
    ∧ (putOneCore env st idStr body coll nf).2.find? (matchesOid h)
        = some (applySet d (dropId body))
    ∧ ((putOneCore env st idStr body coll nf).2).length = coll.length
    ∧ ∀ e ∈ coll, matchesOid h e = false →
        e ∈ (putOneCore env st idStr body coll nf).2 := by
  have hcore := putOneCore_found env st idStr body coll nf h d hoid hc hfind
  rw [hcore]
  have hfd : matchesOid h (applySet d (dropId body)) = true :=
    matchesOid_applySet_dropId h d body hnid (List.find?_some hfind)
  refine ⟨rfl, ?_, ?_, ?_⟩
  · exact find?_updateFirstWhere (matchesOid h)
      (fun x => applySet x (dropId body)) coll d hfind hfd
  · exact length_updateFirstWhere _ _ coll
  · intro e he hpe
    exact mem_updateFirstWhere_of_not (matchesOid h) _ coll e he hpe

/-- C5: for every entity and every existing target document,
`update(id, fields)` stores exactly the submitted fields in the target
document and leaves its other fields and the other collections unchanged;
the `id` member of the payload is excluded from the stored field-set, and
the updated document (with the rest of the collection) is what a
subsequent read-all reflects. -/
theorem update_frame_exact_fields (env : Env) (st : StoreStatus) (db : DB)
    (hc : connectDB env st = Except.ok ()) :
    (∀ idStr h body d, getObjectId idStr = some h →
       db.projects.find? (matchesOid h) = some d →
       hasKey body "_id" = false →
       (handle env st (Request.putProject idStr body) db).1 = ⟨200, RespBody.doc body⟩
       ∧ (handle env st (Request.putProject idStr body) db).2.projects.find? (matchesOid h)
           = some (applySet d (dropId body))
       ∧ (handle env st (Request.putProject idStr body) db).2.judges = db.judges
       ∧ (handle env st (Request.putProject idStr body) db).2.criteria = db.criteria
       ∧ (handle env st (Request.putProject idStr body) db).2.scores = db.scores
       ∧ (handle env st (Request.putProject idStr body) db).2.projects.length
           = db.projects.length
       ∧ ∀ e ∈ db.projects, matchesOid h e = false →
           e ∈ (handle env st (Request.putProject idStr body) db).2.projects)
    ∧ (∀ idStr h body d, getObjectId idStr = some h →
       db.judges.find? (matchesOid h) = some d →
       hasKey body "_id" = false →
       (handle env st (Request.putJudge idStr body) db).1 = ⟨200, RespBody.doc body⟩
       ∧ (handle env st (Request.putJudge idStr body) db).2.judges.find? (matchesOid h)
           = some (applySet d (dropId body)))
    ∧ (∀ idStr h body d, getObjectId idStr = some h →
       db.criteria.find? (matchesOid h) = some d →
       hasKey body "_id" = false →
       (handle env st (Request.putCriterion idStr body) db).1 = ⟨200, RespBody.doc body⟩
       ∧ (handle env st (Request.putCriterion idStr body) db).2.criteria.find? (matchesOid h)
           = some (applySet d (dropId body)))
    ∧ (∀ d body : MDoc, (body.map Prod.fst).Nodup →
        (∀ k v, (k, v) ∈ body → k ≠ "id" → getF (applySet d (dropId body)) k = some v)
        ∧ (∀ k, hasKey body k = false → getF (applySet d (dropId body)) k = getF d k)
        ∧ getF (applySet d (dropId body)) "id" = getF d "id") := by
  refine ⟨?_, ?_, ?_, fun d body hnd => applySet_dropId_fields d body hnd⟩
  · intro idStr h body d hoid hfind hnid
    have hcf := putOneCore_frame env st idStr body db.projects "Project not found" h d
      hoid hc hfind hnid
    have hh : handle env st (Request.putProject idStr body) db
        = ((putOneCore env st idStr body db.projects "Project not found").1,
           { db with projects := (putOneCore env st idStr body db.projects "Project not found").2 }) := rfl
    rw [hh]
    exact ⟨hcf.1, hcf.2.1, rfl, rfl, rfl, hcf.2.2.1, hcf.2.2.2⟩
  · intro idStr h body d hoid hfind hnid
    have hcf := putOneCore_frame env st idStr body db.judges "Judge not found" h d
      hoid hc hfind hnid
    have hh : handle env st (Request.putJudge idStr body) db
        = ((putOneCore env st idStr body db.judges "Judge not found").1,
           { db with judges := (putOneCore env st idStr body db.judges "Judge not found").2 }) := rfl
    rw [hh]
    exact ⟨hcf.1, hcf.2.1⟩
  · intro idStr h body d hoid hfind hnid
    have hcf := putOneCore_frame env st idStr body db.criteria "Criterion not found" h d
      hoid hc hfind hnid
    have hh : handle env st (Request.putCriterion idStr body) db
        = ((putOneCore env st idStr body db.criteria "Criterion not found").1,
           { db with criteria := (putOneCore env st idStr body db.criteria "Criterion not found").2 }) := rfl
    rw [hh]
    exact ⟨hcf.1, hcf.2.1⟩

/-- Witness for C5: updating project `ff…f` (fields `name`, `track`) with
payload `{id, name: "New"}` responds 200, stores `name = "New"`, keeps
`track = "AI"` unchanged, does not store the payload `id`, and leaves the
other collections unchanged. -/
theorem update_frame_exact_fields_witness :
    connectDB ⟨some "mongodb://h/db", none⟩ StoreStatus.up = Except.ok ()
    ∧ getObjectId "ffffffffffffffffffffffff" = some "ffffffffffffffffffffffff"
    ∧ (DB.mk [[("_id", Val.oid "ffffffffffffffffffffffff"), ("name", Val.str "Old"),
               ("track", Val.str "AI")]] [] [] [] 9).projects.find?
        (matchesOid "ffffffffffffffffffffffff")
        = some [("_id", Val.oid "ffffffffffffffffffffffff"), ("name", Val.str "Old"),
                ("track", Val.str "AI")]
    ∧ hasKey [("id", Val.str "ffffffffffffffffffffffff"), ("name", Val.str "New")] "_id" = false
    ∧ ((handle ⟨some "mongodb://h/db", none⟩ StoreStatus.up
          (Request.putProject "ffffffffffffffffffffffff"
            [("id", Val.str "ffffffffffffffffffffffff"), ("name", Val.str "New")])
          (DB.mk [[("_id", Val.oid "ffffffffffffffffffffffff"), ("name", Val.str "Old"),
                   ("track", Val.str "AI")]] [] [] [] 9)).1
        = ⟨200, RespBody.doc [("id", Val.str "ffffffffffffffffffffffff"),
                              ("name", Val.str "New")]⟩
       ∧ (handle ⟨some "mongodb://h/db", none⟩ StoreStatus.up
            (Request.putProject "ffffffffffffffffffffffff"
              [("id", Val.str "ffffffffffffffffffffffff"), ("name", Val.str "New")])
            (DB.mk [[("_id", Val.oid "ffffffffffffffffffffffff"), ("name", Val.str "Old"),
                     ("track", Val.str "AI")]] [] [] [] 9)).2.projects.find?
          (matchesOid "ffffffffffffffffffffffff")
          = some (applySet [("_id", Val.oid "ffffffffffffffffffffffff"),
                            ("name", Val.str "Old"), ("track", Val.str "AI")]
              (dropId [("id", Val.str "ffffffffffffffffffffffff"), ("name", Val.str "New")])))
    ∧ applySet [("_id", Val.oid "ffffffffffffffffffffffff"), ("name", Val.str "Old"),
                ("track", Val.str "AI")]
        (dropId [("id", Val.str "ffffffffffffffffffffffff"), ("name", Val.str "New")])
      = [("_id", Val.oid "ffffffffffffffffffffffff"), ("name", Val.str "New"),
         ("track", Val.str "AI")] := by
  have hmain := (update_frame_exact_fields ⟨some "mongodb://h/db", none⟩ StoreStatus.up
    (DB.mk [[("_id", Val.oid "ffffffffffffffffffffffff"), ("name", Val.str "Old"),
             ("track", Val.str "AI")]] [] [] [] 9) rfl).1
    "ffffffffffffffffffffffff" "ffffffffffffffffffffffff"
    [("id", Val.str "ffffffffffffffffffffffff"), ("name", Val.str "New")]
    [("_id", Val.oid "ffffffffffffffffffffffff"), ("name", Val.str "Old"),
     ("track", Val.str "AI")] (by decide) (by decide) (by decide)
  exact ⟨rfl, by decide, by decide, by decide, ⟨hmain.1, hmain.2.1⟩, by decide⟩

theorem getF_upsertNewDoc_id (next : Nat) (v : Val) (sd : List (String × Val))
    (hsd : "id" ∉ sd.map Prod.fst) :
    getF (upsertNewDoc next (some v) sd) "id" = some v := by
  rw [upsertNewDoc]
  have hbase : getF (applySet [("id", v)] sd) "id" = some v := by
    rw [getF_applySet_not_mem _ sd "id" hsd, getF_cons]
    simp
  split
  · exact hbase
  · rw [getF_append, hbase]
    rfl

theorem matchesIdQ_applySet_dropId (q : Option Val) (d body : MDoc)
    (hd : matchesIdQ q d = true) :
    matchesIdQ q (applySet d (dropId body)) = true := by
  rw [matchesIdQ] at hd ⊢
  rw [getF_applySet_not_mem d (dropId body) "id" (keys_dropId_not_id body)]
  exact hd

/-- C1: score writes are idempotent upserts keyed by the client-supplied
external id: when the store holds at most one Score with the payload's
id, after the POST it holds exactly one; a matching document has the
payload's fields `$set` into it and no duplicate is created, while an
absent id leads to a single new document carrying that id; the other
collections are untouched and the submitted payload is echoed with 200. -/
theorem scores_upsert_keyed_by_client_id (env : Env) (st : StoreStatus)
    (db : DB) (body : MDoc) (v : Val)
    (hc : connectDB env st = Except.ok ())
    (hid : getF body "id" = some v)
    (hcount : db.scores.countP (matchesIdQ (some v)) ≤ 1) :
    (handle env st (Request.postScores body) db).1 = ⟨200, RespBody.doc body⟩
    ∧ (handle env st (Request.postScores body) db).2.scores.countP (matchesIdQ (some v)) = 1
    ∧ (handle env st (Request.postScores body) db).2.scores.find? (matchesIdQ (some v))
        = some (match db.scores.find? (matchesIdQ (some v)) with
                | some d => applySet d (dropId body)
                | none => upsertNewDoc db.nextOid (some v) (dropId body))
    ∧ (db.scores.find? (matchesIdQ (some v)) = none →
        (handle env st (Request.postScores body) db).2.scores.length
          = db.scores.length + 1)
    ∧ (∀ d, db.scores.find? (matchesIdQ (some v)) = some d →
        (handle env st (Request.postScores body) db).2.scores.length = db.scores.length)
    ∧ (handle env st (Request.postScores body) db).2.projects = db.projects
    ∧ (handle env st (Request.postScores body) db).2.judges = db.judges
    ∧ (handle env st (Request.postScores body) db).2.criteria = db.criteria := by
  by_cases hany : db.scores.any (matchesIdQ (some v)) = true
  · obtain ⟨d, hd⟩ := Option.isSome_iff_exists.mp (List.find?_isSome.mpr
      (by
        obtain ⟨x, hx, hpx⟩ := List.any_eq_true.mp hany
        exact ⟨x, hx, hpx⟩))
    have hh : handle env st (Request.postScores body) db
        = (⟨200, RespBody.doc body⟩,
           { db with
             scores := updateFirstWhere (matchesIdQ (some v))
               (fun x => applySet x (dropId body)) db.scores }) := by
      simp [handle, postScoresHandler, hid, hc, hany]
    rw [hh, hd]
    have hpres : ∀ x, matchesIdQ (some v) x = true →
        matchesIdQ (some v) (applySet x (dropId body)) = true := fun x hx =>
      matchesIdQ_applySet_dropId (some v) x body hx
    have hcnt : (updateFirstWhere (matchesIdQ (some v))
        (fun x => applySet x (dropId body)) db.scores).countP (matchesIdQ (some v))
        = db.scores.countP (matchesIdQ (some v)) :=
      countP_updateFirstWhere _ _ db.scores hpres
    have hpos : 0 < db.scores.countP (matchesIdQ (some v)) := by
      rw [List.countP_pos_iff]
      obtain ⟨x, hx, hpx⟩ := List.any_eq_true.mp hany
      exact ⟨x, hx, hpx⟩
    refine ⟨rfl, ?_, ?_, ?_, ?_, rfl, rfl, rfl⟩
    · rw [hcnt]
      omega
    · exact find?_updateFirstWhere _ _ db.scores d hd
        (hpres d (List.find?_some hd))
    · intro hnone
      exact absurd hnone (by simp)
    · intro d2 _
      exact length_updateFirstWhere _ _ db.scores
  · have hany2 : db.scores.any (matchesIdQ (some v)) = false := by
      simpa using hany
    have hnone : db.scores.find? (matchesIdQ (some v)) = none := by
      rw [List.find?_eq_none]
      intro x hx
      rw [List.any_eq_false] at hany2
      exact hany2 x hx
    have hh : handle env st (Request.postScores body) db
        = (⟨200, RespBody.doc body⟩,
           { db with
             scores := db.scores ++ [upsertNewDoc db.nextOid (some v) (dropId body)],
             nextOid := db.nextOid + 1 }) := by
      simp [handle, postScoresHandler, hid, hc, hany2]
    rw [hh, hnone]
    have hnd : matchesIdQ (some v) (upsertNewDoc db.nextOid (some v) (dropId body)) = true := by
      rw [matchesIdQ]
      rw [getF_upsertNewDoc_id db.nextOid v (dropId body) (keys_dropId_not_id body)]
      simp
    have hzero : db.scores.countP (matchesIdQ (some v)) = 0 := by
      rw [List.countP_eq_zero]
      intro x hx
      rw [List.any_eq_false] at hany2
      exact hany2 x hx
    refine ⟨rfl, ?_, ?_, ?_, ?_, rfl, rfl, rfl⟩
    · rw [List.countP_append, hzero, List.countP_cons]
      simp [hnd]
    · rw [List.find?_append, hnone]
      rw [List.find?_cons_of_pos _ hnd]
      rfl
    · intro _
      rw [List.length_append]
      rfl
    · intro d2 hd2
      exact absurd hd2 (by simp)

/-- Witness for C1: posting the score `{id:"S1", projectId:"P1",
judgeId:"J1", value:8}` to an empty store and then the same id with
value 5 leaves exactly one Score with id "S1", and its value is 5. -/
theorem scores_upsert_keyed_by_client_id_witness :
    connectDB ⟨some "mongodb://h/db", none⟩ StoreStatus.up = Except.ok ()
    ∧ getF [("id", Val.str "S1"), ("projectId", Val.str "P1"), ("judgeId", Val.str "J1"),
            ("value", Val.num 5)] "id" = some (Val.str "S1")
    ∧ (handle ⟨some "mongodb://h/db", none⟩ StoreStatus.up
        (Request.postScores [("id", Val.str "S1"), ("projectId", Val.str "P1"),
          ("judgeId", Val.str "J1"), ("value", Val.num 8)])
        (DB.mk [] [] [] [] 0)).2.scores.countP (matchesIdQ (some (Val.str "S1"))) ≤ 1
    ∧ ((handle ⟨some "mongodb://h/db", none⟩ StoreStatus.up
          (Request.postScores [("id", Val.str "S1"), ("projectId", Val.str "P1"),
            ("judgeId", Val.str "J1"), ("value", Val.num 5)])
          ((handle ⟨some "mongodb://h/db", none⟩ StoreStatus.up
            (Request.postScores [("id", Val.str "S1"), ("projectId", Val.str "P1"),
              ("judgeId", Val.str "J1"), ("value", Val.num 8)])
            (DB.mk [] [] [] [] 0)).2)).1
        = ⟨200, RespBody.doc [("id", Val.str "S1"), ("projectId", Val.str "P1"),
            ("judgeId", Val.str "J1"), ("value", Val.num 5)]⟩
       ∧ (handle ⟨some "mongodb://h/db", none⟩ StoreStatus.up
            (Request.postScores [("id", Val.str "S1"), ("projectId", Val.str "P1"),
              ("judgeId", Val.str "J1"), ("value", Val.num 5)])
            ((handle ⟨some "mongodb://h/db", none⟩ StoreStatus.up
              (Request.postScores [("id", Val.str "S1"), ("projectId", Val.str "P1"),
                ("judgeId", Val.str "J1"), ("value", Val.num 8)])
              (DB.mk [] [] [] [] 0)).2)).2.scores.countP
            (matchesIdQ (some (Val.str "S1"))) = 1)
    ∧ (handle ⟨some "mongodb://h/db", none⟩ StoreStatus.up
        (Request.postScores [("id", Val.str "S1"), ("projectId", Val.str "P1"),
          ("judgeId", Val.str "J1"), ("value", Val.num 5)])
        ((handle ⟨some "mongodb://h/db", none⟩ StoreStatus.up
          (Request.postScores [("id", Val.str "S1"), ("projectId", Val.str "P1"),
            ("judgeId", Val.str "J1"), ("value", Val.num 8)])
          (DB.mk [] [] [] [] 0)).2)).2.scores
      = [[("id", Val.str "S1"), ("projectId", Val.str "P1"), ("judgeId", Val.str "J1"),
          ("value", Val.num 5), ("_id", Val.oid "000000000000000000000000")]] := by
  have hm := scores_upsert_keyed_by_client_id ⟨some "mongodb://h/db", none⟩
    StoreStatus.up
    ((handle ⟨some "mongodb://h/db", none⟩ StoreStatus.up
      (Request.postScores [("id", Val.str "S1"), ("projectId", Val.str "P1"),
        ("judgeId", Val.str "J1"), ("value", Val.num 8)])
      (DB.mk [] [] [] [] 0)).2)
    [("id", Val.str "S1"), ("projectId", Val.str "P1"), ("judgeId", Val.str "J1"),
     ("value", Val.num 5)]
    (Val.str "S1") rfl rfl (by decide)
  exact ⟨rfl, rfl, by decide, ⟨hm.1, hm.2.1⟩, by decide⟩

theorem getF_cons_ne (k0 k : String) (v : Val) (d : MDoc) (h : k ≠ k0) :
    getF ((k0, v) :: d) k = getF d k := by
  rw [getF_cons]
  have hne : (k0 == k) = false := by
    simp only [beq_eq_false_iff_ne, ne_eq]
    exact fun hh => h hh.symm
  rw [hne]
  simp

theorem insertDocs_ids_oid (bodies : List MDoc) (next : Nat)
    (hb : ∀ b ∈ bodies, hasKey b "_id" = false) :
    ∀ v ∈ ((insertDocs next bodies).2).1, ∃ h, v = Val.oid h := by
  induction bodies generalizing next with
  | nil => intro v hv; exact absurd hv (by simp [insertDocs])
  | cons b bs ih =>
      have hbnone : getF b "_id" = none :=
        getF_eq_none_of_not_hasKey b "_id" (hb b (List.mem_cons_self _ _))
      intro v hv
      rw [insertDocs, hbnone] at hv
      rcases List.mem_cons.mp hv with rfl | hmem
      · exact ⟨toHex24 next, rfl⟩
      · exact ih (next + 1) (fun x hx => hb x (List.mem_cons_of_mem _ hx)) v hmem

/-- C4: per-entity create accepts one (judges, criteria) or many
(projects) payloads supplied without an id; it responds 201 with the
created entity or entities carrying the server-assigned id (the
transformed document `{id: hex, ...payload}`), and the created documents
are in the stored collection (hence in a subsequent read-all) with a
non-empty (24-character) `id`, all other payload fields unchanged. -/
theorem create_returns_assigned_id (env : Env) (st : StoreStatus) (db : DB)
    (hc : connectDB env st = Except.ok ()) :
    (∀ body : MDoc, hasKey body "_id" = false → hasKey body "id" = false →
       (∀ d ∈ db.judges, getF d "_id" ≠ some (Val.oid (toHex24 db.nextOid))) →
       (handle env st (Request.postJudges body) db).1
         = ⟨201, RespBody.doc (("id", Val.str (toHex24 db.nextOid)) :: body)⟩
       ∧ (body ++ [("_id", Val.oid (toHex24 db.nextOid))])
           ∈ (handle env st (Request.postJudges body) db).2.judges
       ∧ transformDoc (body ++ [("_id", Val.oid (toHex24 db.nextOid))])
           = Except.ok (("id", Val.str (toHex24 db.nextOid)) :: body)
       ∧ getF (("id", Val.str (toHex24 db.nextOid)) :: body) "id"
           = some (Val.str (toHex24 db.nextOid))
       ∧ (toHex24 db.nextOid).length = 24
       ∧ ∀ k, k ≠ "id" →
           getF (("id", Val.str (toHex24 db.nextOid)) :: body) k = getF body k)
    ∧ (∀ body : MDoc, hasKey body "_id" = false → hasKey body "id" = false →
       (∀ d ∈ db.criteria, getF d "_id" ≠ some (Val.oid (toHex24 db.nextOid))) →
       (handle env st (Request.postCriteria body) db).1
         = ⟨201, RespBody.doc (("id", Val.str (toHex24 db.nextOid)) :: body)⟩
       ∧ (body ++ [("_id", Val.oid (toHex24 db.nextOid))])
           ∈ (handle env st (Request.postCriteria body) db).2.criteria)
    ∧ (∀ bodies : List MDoc, bodies ≠ [] →
       (∀ b ∈ bodies, hasKey b "_id" = false ∧ hasKey b "id" = false) →
       (handle env st (Request.postProjects bodies) db).1.status = 201
       ∧ ∀ i (hi : i < bodies.length),
           (bodies.get ⟨i, hi⟩ ++ [("_id", Val.oid (toHex24 (db.nextOid + i)))])
             ∈ (handle env st (Request.postProjects bodies) db).2.projects
           ∧ transformDoc (bodies.get ⟨i, hi⟩ ++ [("_id", Val.oid (toHex24 (db.nextOid + i)))])
               = Except.ok (("id", Val.str (toHex24 (db.nextOid + i))) :: bodies.get ⟨i, hi⟩)
           ∧ (("id", Val.str (toHex24 (db.nextOid + i))) :: bodies.get ⟨i, hi⟩)
               ∈ respDocs (handle env st (Request.postProjects bodies) db).1.body
           ∧ getF (("id", Val.str (toHex24 (db.nextOid + i))) :: bodies.get ⟨i, hi⟩) "id"
               = some (Val.str (toHex24 (db.nextOid + i)))
           ∧ (toHex24 (db.nextOid + i)).length = 24) := by
  refine ⟨?_, ?_, ?_⟩
  · intro body hnid hnoid hfresh
    have hcore := postOneCore_fresh env st body db.judges db.nextOid hc hnid hnoid hfresh
    have hh : handle env st (Request.postJudges body) db
        = ((postOneCore env st body db.judges db.nextOid).1,
           { db with
             judges := ((postOneCore env st body db.judges db.nextOid).2).1,
             nextOid := ((postOneCore env st body db.judges db.nextOid).2).2 }) := rfl
    rw [hh, hcore]
    refine ⟨rfl, List.mem_append_right _ (List.mem_singleton.mpr rfl),
      transformDoc_fresh_doc body db.nextOid hnid hnoid, ?_, toHex24_length _, ?_⟩
    · rw [getF_cons]
      simp
    · intro k hk
      exact getF_cons_ne "id" k _ body hk
  · intro body hnid hnoid hfresh
    have hcore := postOneCore_fresh env st body db.criteria db.nextOid hc hnid hnoid hfresh
    have hh : handle env st (Request.postCriteria body) db
        = ((postOneCore env st body db.criteria db.nextOid).1,
           { db with
             criteria := ((postOneCore env st body db.criteria db.nextOid).2).1,
             nextOid := ((postOneCore env st body db.criteria db.nextOid).2).2 }) := rfl
    rw [hh, hcore]
    exact ⟨rfl, List.mem_append_right _ (List.mem_singleton.mpr rfl)⟩
  · intro bodies _ hb
    have hb1 : ∀ b ∈ bodies, hasKey b "_id" = false := fun b h => (hb b h).1
    have hcreated : ∀ d ∈ (db.projects ++ (insertDocs db.nextOid bodies).1).filter (fun d =>
          match getF d "_id" with
          | some v => ((insertDocs db.nextOid bodies).2).1.contains v
          | none => false),
        ∃ h, getF d "_id" = some (Val.oid h) := by
      intro d hd
      have hpred := (List.mem_filter.mp hd).2
      cases hv : getF d "_id" with
      | none => rw [hv] at hpred; exact absurd hpred (by simp)
      | some v =>
          rw [hv] at hpred
          simp only at hpred
          have hvmem : v ∈ ((insertDocs db.nextOid bodies).2).1 :=
            List.mem_of_elem_eq_true hpred
          obtain ⟨h, rfl⟩ := insertDocs_ids_oid bodies db.nextOid hb1 v hvmem
          exact ⟨h, rfl⟩
    obtain ⟨ts, hts, _⟩ := mapTransform_ok_of_oid _ hcreated
    have hh : handle env st (Request.postProjects bodies) db
        = (⟨201, RespBody.docs ts⟩,
           { db with
             projects := db.projects ++ (insertDocs db.nextOid bodies).1,
             nextOid := ((insertDocs db.nextOid bodies).2).2 }) := by
      simp only [handle, postProjectsHandler, hc]
      rw [hts]
    rw [hh]
    refine ⟨rfl, ?_⟩
    intro i hi
    obtain ⟨hmemd, hmemid⟩ := insertDocs_mem bodies db.nextOid hb1 i hi
    have hbi := hb (bodies.get ⟨i, hi⟩) (bodies.get_mem _ _)
    have hndid : getF (bodies.get ⟨i, hi⟩ ++ [("_id", Val.oid (toHex24 (db.nextOid + i)))]) "_id"
        = some (Val.oid (toHex24 (db.nextOid + i))) :=
      getF_oid_of_fresh _ _ hbi.1
    have htd := transformDoc_fresh_doc (bodies.get ⟨i, hi⟩) (db.nextOid + i) hbi.1 hbi.2
    have hmemc : (bodies.get ⟨i, hi⟩ ++ [("_id", Val.oid (toHex24 (db.nextOid + i)))])
        ∈ (db.projects ++ (insertDocs db.nextOid bodies).1).filter (fun d =>
          match getF d "_id" with
          | some v => ((insertDocs db.nextOid bodies).2).1.contains v
          | none => false) := by
      rw [List.mem_filter]
      refine ⟨List.mem_append_right _ hmemd, ?_⟩
      rw [hndid]
      simp only
      exact List.elem_eq_true_of_mem hmemid
    refine ⟨List.mem_append_right _ hmemd, htd, ?_, ?_, toHex24_length _⟩
    · rw [respDocs]
      exact mem_mapTransform _ ts _ _ hts hmemc htd
    · rw [getF_cons]
      simp

/-- Witness for C4: creating a judge `{name:"J1"}` and a one-element
project batch `[{name:"P1"}]` on an empty store responds 201 with the
transformed documents; the created judge document is stored, its exposed
`id` is the 24-character hex of the assigned storage key (non-empty), and
`name` is unchanged. -/
theorem create_returns_assigned_id_witness :
    connectDB ⟨some "mongodb://h/db", none⟩ StoreStatus.up = Except.ok ()
    ∧ hasKey [("name", Val.str "J1")] "_id" = false
    ∧ hasKey [("name", Val.str "J1")] "id" = false
    ∧ (∀ d ∈ (DB.mk [] [] [] [] 0).judges,
        getF d "_id" ≠ some (Val.oid (toHex24 (DB.mk [] [] [] [] 0).nextOid)))
    ∧ ((handle ⟨some "mongodb://h/db", none⟩ StoreStatus.up
          (Request.postJudges [("name", Val.str "J1")]) (DB.mk [] [] [] [] 0)).1
        = ⟨201, RespBody.doc (("id", Val.str (toHex24 0)) :: [("name", Val.str "J1")])⟩
       ∧ ([("name", Val.str "J1")] ++ [("_id", Val.oid (toHex24 0))])
           ∈ (handle ⟨some "mongodb://h/db", none⟩ StoreStatus.up
               (Request.postJudges [("name", Val.str "J1")]) (DB.mk [] [] [] [] 0)).2.judges
       ∧ getF (("id", Val.str (toHex24 0)) :: [("name", Val.str "J1")]) "id"
           = some (Val.str (toHex24 0))
       ∧ (toHex24 0).length = 24)
    ∧ (handle ⟨some "mongodb://h/db", none⟩ StoreStatus.up
         (Request.postProjects [[("name", Val.str "P1")]]) (DB.mk [] [] [] [] 0)).1.status = 201
    ∧ transformDoc ([("name", Val.str "J1")] ++ [("_id", Val.oid (toHex24 0))])
        = Except.ok [("id", Val.str "000000000000000000000000"), ("name", Val.str "J1")] := by
  have hj := (create_returns_assigned_id ⟨some "mongodb://h/db", none⟩ StoreStatus.up
    (DB.mk [] [] [] [] 0) rfl).1 [("name", Val.str "J1")] (by decide) (by decide)
    (by intro d hd; simp at hd)
  have hp := ((create_returns_assigned_id ⟨some "mongodb://h/db", none⟩ StoreStatus.up
    (DB.mk [] [] [] [] 0) rfl).2.2 [[("name", Val.str "P1")]] (by simp)
    (by intro b hb; simp at hb; rw [hb]; exact ⟨by decide, by decide⟩)).1
  exact ⟨rfl, by decide, by decide, by intro d hd; simp at hd,
    ⟨hj.1, hj.2.1, hj.2.2.2.1, hj.2.2.2.2.1⟩, hp, rfl⟩
